import Mathlib

/-!
# TMDS video source validation

A shallow embedding of `hdl/interfaces/video/video_source_validation.{h,cc}`:
the symbol codec (control, TERC4 and data characters, preamble and guard band
recognisers) and the stream validator `validate_characters`.

Conventions of the embedding:

* `uint` values are natural numbers; `++x` on a `uint` counter is `uincr x`,
  the successor modulo `2 ^ 32`, and `~x` is `unot x`.
* `std::optional<uint>` is `Option Nat`.
* `assert` is modelled as active: a failed assertion ends the call with
  `Outcome.abort`, carrying the object as it was when the assertion failed
  and the messages written before it.
* `std::cout` is modelled by the list of messages a call writes.
-/

namespace VideoSourceValidation

/-! ## Machine arithmetic -/

/-- The number of values of the 32-bit type `uint`. -/
def UINT_SIZE : Nat := 4294967296

/-- The `++` operator on a `uint`. -/
def uincr (x : Nat) : Nat := (x + 1) % UINT_SIZE

/-- The `~` operator on a `uint`. -/
def unot (x : Nat) : Nat := (UINT_SIZE - 1) ^^^ (x % UINT_SIZE)

/-- Conversion `static_cast<char>` of a `uint`: the byte that is stored. -/
def to_char (x : Nat) : Nat := x % 256

/-! ## Symbol codec -/

/-- The `switch` of `try_decode_as_control`. -/
def try_decode_as_control (c : Nat) : Option Nat :=
  match c with
  | 0b1101010100 => some 0b00
  | 0b0010101011 => some 0b01
  | 0b0101010100 => some 0b10
  | 0b1010101011 => some 0b11
  | _ => none

/-- The `switch` of `try_decode_as_terc4`. -/
def try_decode_as_terc4 (c : Nat) : Option Nat :=
  match c with
  | 0b1010011100 => some 0b0000
  | 0b1001100011 => some 0b0001
  | 0b1011100100 => some 0b0010
  | 0b1011100010 => some 0b0011
  | 0b0101110001 => some 0b0100
  | 0b0100011110 => some 0b0101
  | 0b0110001110 => some 0b0110
  | 0b0100111100 => some 0b0111
  | 0b1011001100 => some 0b1000
  | 0b0100111001 => some 0b1001
  | 0b0110011100 => some 0b1010
  | 0b1011000110 => some 0b1011
  | 0b1010001110 => some 0b1100
  | 0b1001110001 => some 0b1101
  | 0b0101100011 => some 0b1110
  | 0b1011000011 => some 0b1111
  | _ => none

/-- The case labels of `try_decode_as_control`, in source order. -/
def control_characters : List Nat :=
  [0b1101010100, 0b0010101011, 0b0101010100, 0b1010101011]

/-- The case labels of `try_decode_as_terc4`, in source order. -/
def terc4_characters : List Nat :=
  [0b1010011100, 0b1001100011, 0b1011100100, 0b1011100010,
   0b0101110001, 0b0100011110, 0b0110001110, 0b0100111100,
   0b1011001100, 0b0100111001, 0b0110011100, 0b1011000110,
   0b1010001110, 0b1001110001, 0b0101100011, 0b1011000011]

/-- The value of a `std::bitset<8>` given its eight bits, `to_ulong`. -/
def to_ulong (q0 q1 q2 q3 q4 q5 q6 q7 : Bool) : Nat :=
  q0.toNat + 2 * q1.toNat + 4 * q2.toNat + 8 * q3.toNat + 16 * q4.toNat
    + 32 * q5.toNat + 64 * q6.toNat + 128 * q7.toNat

/-- The function `decode_data`; `none` is the failure of `assert(c < 0x400)`. -/
def decode_data (c : Nat) : Option Nat :=
  if c < 0x400 then
    -- if D[9], invert D[7:0]
    let c := if (c &&& 0x200) = 0x200
      then (c &&& 0x300) ||| (unot (c &&& 0xff) &&& 0xff)
      else c
    let d := c &&& 0xff
    if (c &&& 0x100) = 0x100 then
      some (to_ulong (d.testBit 0)
        (xor (d.testBit 1) (d.testBit 0))
        (xor (d.testBit 2) (d.testBit 1))
        (xor (d.testBit 3) (d.testBit 2))
        (xor (d.testBit 4) (d.testBit 3))
        (xor (d.testBit 5) (d.testBit 4))
        (xor (d.testBit 6) (d.testBit 5))
        (xor (d.testBit 7) (d.testBit 6)))
    else
      some (to_ulong (d.testBit 0)
        (!(xor (d.testBit 1) (d.testBit 0)))
        (!(xor (d.testBit 2) (d.testBit 1)))
        (!(xor (d.testBit 3) (d.testBit 2)))
        (!(xor (d.testBit 4) (d.testBit 3)))
        (!(xor (d.testBit 5) (d.testBit 4)))
        (!(xor (d.testBit 6) (d.testBit 5)))
        (!(xor (d.testBit 7) (d.testBit 6))))
  else none

/-- The function `is_video_preamble`, on decoded control values. -/
def is_video_preamble (_ch0 ch1 ch2 : Nat) : Bool :=
  ch1 == 0b01 && ch2 == 0b00

/-- The function `is_video_guard_band`, on raw characters. -/
def is_video_guard_band (ch0 ch1 ch2 : Nat) : Bool :=
  ch0 == 0b1011001100 && ch1 == 0b0100110011 && ch2 == 0b1011001100

/-! ## Reference codec, from the words of the specification -/

/-- The low byte of a character, bitwise inverted iff bit 9 is set: step (a)
of the specified decode. -/
def decode_ref_low_byte (c : Nat) : Nat :=
  if c.testBit 9 then (c % 256) ^^^ 255 else c % 256

/-- Bit `i` of the specified decode: bit 0 of the low byte for `i = 0`, and
for the other bits the XOR of adjacent bits of the low byte when bit 8 of the
character is set, its negation when bit 8 is clear. -/
def decode_ref_bit (c : Nat) (i : Nat) : Bool :=
  let d := decode_ref_low_byte c
  if i = 0 then d.testBit 0
  else if c.testBit 8 then xor (d.testBit i) (d.testBit (i - 1))
  else !(xor (d.testBit i) (d.testBit (i - 1)))

/-- The number whose bits 0..7 are the `bit`s given. -/
def of_bits8 (bit : Nat → Bool) : Nat :=
  (bit 0).toNat + 2 * (bit 1).toNat + 4 * (bit 2).toNat + 8 * (bit 3).toNat
    + 16 * (bit 4).toNat + 32 * (bit 5).toNat + 64 * (bit 6).toNat + 128 * (bit 7).toNat

/-- The specified decode of a character. -/
def decode_ref (c : Nat) : Nat := of_bits8 (decode_ref_bit c)

/-- Bit `i` of the low byte the reference encoder builds, before inversion:
`e[0] = v[0]`, and `e[i] = v[i] XOR e[i-1]` when `x` is set,
`NOT (v[i] XOR e[i-1])` when it is clear. -/
def encode_ref_bit (v : Nat) (x : Bool) : Nat → Bool
  | 0 => v.testBit 0
  | i + 1 =>
    if x then xor (v.testBit (i + 1)) (encode_ref_bit v x i)
    else !(xor (v.testBit (i + 1)) (encode_ref_bit v x i))

/-- The reference encoder: bit 9 is `inv`, bit 8 is `x`, and the low byte is
the byte of `encode_ref_bit`, inverted iff `inv`. -/
def encode_ref (v : Nat) (inv x : Bool) : Nat :=
  let e := of_bits8 (encode_ref_bit v x)
  inv.toNat * 512 + x.toNat * 256 + (if inv then e ^^^ 255 else e)

/-! ## Stream validator -/

/-- The struct `Pixel`: three bytes. -/
structure Pixel where
  r : Nat
  g : Nat
  b : Nat
deriving DecidableEq, Repr

end VideoSourceValidation

/-- The data members of `struct VideoSourceValidation`. -/
structure VideoSourceValidation where
  previous_h_sync : Bool
  previous_v_sync : Bool
  control_period : Bool
  video_data_period : Bool
  video_preamble : Bool
  video_guard_band : Bool
  frames : Nat
  control_period_dots : Nat
  preamble_dots : Nat
  guard_band_dots : Nat
  previous_h_active_dots : Nat
  h_active_dots : Nat
  v_active_lines : Nat
  buffer : List VideoSourceValidation.Pixel
deriving DecidableEq, Repr

namespace VideoSourceValidation

/-- The default member initialisers: a freshly constructed validator. -/
def fresh : VideoSourceValidation :=
  { previous_h_sync := false, previous_v_sync := false,
    control_period := false, video_data_period := false,
    video_preamble := false, video_guard_band := false,
    frames := 0, control_period_dots := 0, preamble_dots := 0, guard_band_dots := 0,
    previous_h_active_dots := 0, h_active_dots := 0, v_active_lines := 0,
    buffer := [] }

/-- The lines `validate_characters` writes to `std::cout`, with the number
each one prints. -/
inductive Message where
  /-- Line "Preamble spacing violation. Current control period N dots." -/
  | preamble_spacing (dots : Nat)
  /-- Line "Preamble too long, N dots." -/
  | preamble_too_long (dots : Nat)
  /-- Line "Preamble incorrect length, N dots." -/
  | preamble_incorrect_length (dots : Nat)
  /-- Line "Video guard band too long, N dots." -/
  | guard_band_too_long (dots : Nat)
  /-- Line "Video guard band incorrect length, N dots." -/
  | guard_band_incorrect_length (dots : Nat)
  /-- Line "No pixel data for frame N" of `save_frame_buffer`. -/
  | no_pixel_data (frames : Nat)
  /-- Line "Frame N WxH" of `save_frame_buffer`. -/
  | frame_saved (frames h_active v_active : Nat)
deriving DecidableEq, Repr

/-- The result of a call: it returned (`ok`) or an assertion failed (`abort`);
either way with the object at that point and the messages written. -/
inductive Outcome where
  | ok (s : VideoSourceValidation) (out : List Message)
  | abort (s : VideoSourceValidation) (out : List Message)
deriving DecidableEq, Repr

/-- The condition of the assertion "characters are aligned". -/
def aligned (ch0_ctl ch1_ctl ch2_ctl : Option Nat) : Bool :=
  (ch0_ctl.isSome && ch1_ctl.isSome && ch2_ctl.isSome) ||
    !(ch0_ctl.isSome || ch1_ctl.isSome || ch2_ctl.isSome)

/-- Lines 145-170 of `validate_characters`: the preamble bookkeeping of the
control branch, on the decoded control values. -/
def preamble_update (s : VideoSourceValidation) (c0 c1 c2 : Nat) : Outcome :=
  if is_video_preamble c0 c1 c2 then
    if !s.video_preamble then
      if s.preamble_dots = 0 then
        .ok { s with video_preamble := true, preamble_dots := uincr s.preamble_dots }
          (if s.control_period_dots < 4
            then [Message.preamble_spacing s.control_period_dots] else [])
      else .abort s []
    else
      let s1 := { s with preamble_dots := uincr s.preamble_dots }
      .ok s1 (if s1.preamble_dots > 8
        then [Message.preamble_too_long s1.preamble_dots] else [])
  else .ok s []

/-- Lines 172-192 of `validate_characters`: the sync edge handling of the
control branch, on channel 0's decoded control value. -/
def sync_update (s : VideoSourceValidation) (c0 : Nat) : VideoSourceValidation :=
  let h_sync := (c0 &&& 0x1) != 0
  let v_sync := (c0 &&& 0x2) != 0
  let s3 :=
    if !s.previous_h_sync && h_sync then
      let s1 :=
        if !s.previous_v_sync && v_sync then
          { s with frames := uincr s.frames, v_active_lines := 0 }
        else s
      let s2 :=
        if s1.previous_h_active_dots = 0 ∨ s1.h_active_dots ≠ 0 then
          { s1 with previous_h_active_dots := s1.h_active_dots }
        else s1
      { s2 with previous_v_sync := v_sync, h_active_dots := 0 }
    else s
  { s3 with previous_h_sync := h_sync }

/-- Lines 140-192 of `validate_characters`: the branch taken when channel 0
holds a control character. -/
def control_branch (s : VideoSourceValidation) (c0 c1 c2 : Nat) : Outcome :=
  let s1 := { s with video_data_period := false, control_period := true,
                     control_period_dots := uincr s.control_period_dots }
  match preamble_update s1 c0 c1 c2 with
  | .ok s2 out => .ok (sync_update s2 c0) out
  | .abort s2 out => .abort s2 out

/-- Lines 196-225 of `validate_characters`: the branch taken on the guard
band pattern. -/
def guard_band_branch (s : VideoSourceValidation) : Outcome :=
  if !s.video_guard_band then
    if s.control_period_dots > s.preamble_dots then
      if s.guard_band_dots = 0 then
        .ok { s with video_preamble := false, control_period_dots := 0, preamble_dots := 0,
                     video_guard_band := true, video_data_period := true,
                     guard_band_dots := uincr s.guard_band_dots,
                     v_active_lines := uincr s.v_active_lines }
          (if s.preamble_dots ≠ 8
            then [Message.preamble_incorrect_length s.preamble_dots] else [])
      else .abort s []
    else .abort s []
  else
    let s1 := { s with guard_band_dots := uincr s.guard_band_dots }
    .ok s1 (if s1.guard_band_dots > 2
      then [Message.guard_band_too_long s1.guard_band_dots] else [])

/-- Lines 245-250 of `validate_characters`: count the dot, decode the three
channels in the order the initialiser lists them, append the pixel. -/
def push_pixel (s : VideoSourceValidation) (out : List Message) (ch0 ch1 ch2 : Nat) : Outcome :=
  let s1 := { s with h_active_dots := uincr s.h_active_dots }
  match decode_data ch2 with
  | none => .abort s1 out
  | some r =>
    match decode_data ch1 with
    | none => .abort s1 out
    | some g =>
      match decode_data ch0 with
      | none => .abort s1 out
      | some b =>
        .ok { s1 with buffer := s1.buffer ++ [{ r := to_char r, g := to_char g, b := to_char b }] }
          out

/-- Lines 229-250 of `validate_characters`: the branch taken on video data. -/
def data_branch (s : VideoSourceValidation) (ch0 ch1 ch2 : Nat) : Outcome :=
  if s.video_data_period then
    if s.video_guard_band then
      if s.h_active_dots = 0 then
        push_pixel { s with video_guard_band := false, guard_band_dots := 0 }
          (if s.guard_band_dots ≠ 2
            then [Message.guard_band_incorrect_length s.guard_band_dots] else [])
          ch0 ch1 ch2
      else .abort s []
    else push_pixel s [] ch0 ch1 ch2
  else .abort s []

/-- The member function `validate_characters`. Channels 1 and 2 are
dereferenced in the control branch; the alignment assertion before it
guarantees they hold a value, so the `abort` of the inner match is never
reached. -/
def validate_characters (s : VideoSourceValidation) (ch0 ch1 ch2 : Nat) : Outcome :=
  let ch0_ctl := try_decode_as_control ch0
  let ch1_ctl := try_decode_as_control ch1
  let ch2_ctl := try_decode_as_control ch2
  if aligned ch0_ctl ch1_ctl ch2_ctl then
    match ch0_ctl with
    | some c0 =>
      match ch1_ctl, ch2_ctl with
      | some c1, some c2 => control_branch s c0 c1 c2
      | _, _ => .abort s []
    | none =>
      if is_video_guard_band ch0 ch1 ch2 then guard_band_branch s
      else data_branch s ch0 ch1 ch2
  else .abort s []

/-- One character triple of the stream: channels 0, 1 and 2. -/
abbrev Triple := Nat × Nat × Nat

/-- The caller's loop: `validate_characters` on each triple of a stream in
turn, collecting what is written; the first failed assertion ends it. -/
def feed (s : VideoSourceValidation) : List Triple → Outcome
  | [] => .ok s []
  | t :: rest =>
    match validate_characters s t.1 t.2.1 t.2.2 with
    | .ok s1 out =>
      match feed s1 rest with
      | .ok s2 out2 => .ok s2 (out ++ out2)
      | .abort s2 out2 => .abort s2 (out ++ out2)
    | .abort s1 out => .abort s1 out

/-- The object at the end of a call, returned or aborted. -/
def Outcome.state : Outcome → VideoSourceValidation
  | .ok s _ => s
  | .abort s _ => s

/-- The messages written during a call, returned or aborted. -/
def Outcome.out : Outcome → List Message
  | .ok _ out => out
  | .abort _ out => out

/-- Whether the call returned, that is no assertion failed. -/
def Outcome.returned : Outcome → Bool
  | .ok _ _ => true
  | .abort _ _ => false

/-- How many of the three channels decode as control codes. -/
def control_count (ch0 ch1 ch2 : Nat) : Nat :=
  (try_decode_as_control ch0).isSome.toNat + (try_decode_as_control ch1).isSome.toNat
    + (try_decode_as_control ch2).isSome.toNat

/-- A control triple: all three channels carry a control character. -/
def is_control_triple (t : Triple) : Bool :=
  (try_decode_as_control t.1).isSome && (try_decode_as_control t.2.1).isSome
    && (try_decode_as_control t.2.2).isSome

/-- A preamble triple: a control triple whose channel 1 decodes to 0b01 and
channel 2 to 0b00. -/
def is_preamble_triple (t : Triple) : Bool :=
  (try_decode_as_control t.1).isSome && try_decode_as_control t.2.1 == some 0b01
    && try_decode_as_control t.2.2 == some 0b00

/-- A guard band triple. -/
def is_guard_band_triple (t : Triple) : Bool :=
  is_video_guard_band t.1 t.2.1 t.2.2

/-- A data triple: three ten-bit characters, none of them a control
character, that are not the guard band pattern. -/
def is_data_triple (t : Triple) : Bool :=
  decide (t.1 < 1024) && decide (t.2.1 < 1024) && decide (t.2.2 < 1024)
    && (try_decode_as_control t.1).isNone && (try_decode_as_control t.2.1).isNone
    && (try_decode_as_control t.2.2).isNone && !is_video_guard_band t.1 t.2.1 t.2.2

/-- The guard band triple of `is_video_guard_band`. -/
def guard_band : Triple := (0b1011001100, 0b0100110011, 0b1011001100)

/-- The control character that decodes to 0b00 (both sync bits low). -/
def CTL_00 : Nat := 0b1101010100

/-- The control character that decodes to 0b01 (horizontal sync high). -/
def CTL_01 : Nat := 0b0010101011

/-- The control character that decodes to 0b10 (vertical sync high). -/
def CTL_10 : Nat := 0b0101010100

/-- The control character that decodes to 0b11 (both sync bits high). -/
def CTL_11 : Nat := 0b1010101011

/-- Bit 0 of the control value on channel 0 of a triple: horizontal sync. -/
def h_sync_bit (t : Triple) : Bool :=
  match try_decode_as_control t.1 with
  | some c => (c &&& 0x1) != 0
  | none => false

/-- Bit 1 of the control value on channel 0 of a triple: vertical sync. -/
def v_sync_bit (t : Triple) : Bool :=
  match try_decode_as_control t.1 with
  | some c => (c &&& 0x2) != 0
  | none => false

/-- The sync history of a stream of control triples, read off the stream
alone: first the horizontal sync bit of the last triple (false for the empty
stream), second the vertical sync bit of the most recent triple whose
horizontal sync bit was set while that of the triple before it was clear
(false if there is no such triple). -/
def sync_history_from (start : Bool × Bool) (l : List Triple) : Bool × Bool :=
  l.foldl (fun p t =>
    (h_sync_bit t, if !p.1 && h_sync_bit t then v_sync_bit t else p.2)) start

/-- The sync history of a stream fed to a fresh validator. -/
def sync_history (l : List Triple) : Bool × Bool := sync_history_from (false, false) l

/-- The pixel `validate_characters` appends for a data triple: red from
channel 2, green from channel 1, blue from channel 0. -/
def pixel_of (t : Triple) : Pixel :=
  { r := (decode_data t.2.2).getD 0, g := (decode_data t.2.1).getD 0,
    b := (decode_data t.1).getD 0 }

/-- Whether a message is a "Preamble incorrect length" line. -/
def Message.is_preamble_incorrect_length : Message → Bool
  | .preamble_incorrect_length _ => true
  | _ => false

/-- What `save_frame_buffer` writes to the file it opens: the header fields
and then the bytes of the pixels. -/
structure PpmFile where
  path : String
  magic : String
  width : Nat
  height : Nat
  maxval : Nat
  data : List Nat
deriving DecidableEq, Repr

/-- The member function `save_frame_buffer`: the outcome of the call and the
file written, if any. The product `h_active * v_active` is a `uint` product;
the object is not modified. Failures of the file stream are not modelled. -/
def save_frame_buffer (s : VideoSourceValidation) (file_path : String)
    (h_active v_active : Nat) : Outcome × Option PpmFile :=
  if s.buffer.length = 0 then
    (.ok s [Message.no_pixel_data s.frames], none)
  else if s.buffer.length = (h_active * v_active) % UINT_SIZE then
    (.ok s [Message.frame_saved s.frames h_active v_active],
      some { path := file_path, magic := "P6", width := h_active, height := v_active,
             maxval := 255, data := s.buffer.flatMap (fun p => [p.r, p.g, p.b]) })
  else (.abort s [], none)

/-- The function `Source::save_frame_buffer` of the example driver, on its
member `validate_`: `save_frame_buffer` with the recorded width and the line
count, then `buffer.clear()`. -/
def Source.save_frame_buffer (validate_ : VideoSourceValidation) (file_path : String) :
    Outcome × Option PpmFile :=
  match VideoSourceValidation.save_frame_buffer validate_ file_path
      validate_.previous_h_active_dots validate_.v_active_lines with
  | (.ok s out, f) => (.ok { s with buffer := [] } out, f)
  | (.abort s out, f) => (.abort s out, f)

/-- A state a fresh validator is in after a sequence of calls of
`validate_characters` that all returned. -/
def reachable (s : VideoSourceValidation) : Prop :=
  ∃ (l : List Triple) (out : List Message), feed fresh l = .ok s out

/-- The consistency of the phase flags with the dot counters: a preamble is
only active in a control period, and the dot counters of the preamble and of
the guard band are 0 while their flags are clear. -/
def phase_invariant (s : VideoSourceValidation) : Prop :=
  (s.video_preamble = true → s.control_period = true) ∧
  (s.video_preamble = false → s.preamble_dots = 0) ∧
  (s.video_guard_band = false → s.guard_band_dots = 0)

/-! ## The symbol codec: control and TERC4 tables -/

theorem control_some_aux (c v : Nat) (h : try_decode_as_control c = some v) :
    control_characters[v]? = some c := by
  unfold try_decode_as_control at h
  split at h <;> simp at h <;> subst h <;> rfl

theorem control_index_aux (c v : Nat) (h : control_characters[v]? = some c) :
    try_decode_as_control c = some v := by
  have hv : v < 4 := by
    have := (List.getElem?_eq_some.mp h).1
    simpa [control_characters] using this
  interval_cases v <;> simp [control_characters] at h <;> subst h <;> rfl

theorem terc4_some_aux (c v : Nat) (h : try_decode_as_terc4 c = some v) :
    terc4_characters[v]? = some c := by
  unfold try_decode_as_terc4 at h
  split at h <;> simp at h <;> subst h <;> rfl

theorem terc4_index_aux (c v : Nat) (h : terc4_characters[v]? = some c) :
    try_decode_as_terc4 c = some v := by
  have hv : v < 16 := by
    have := (List.getElem?_eq_some.mp h).1
    simpa [terc4_characters] using this
  interval_cases v <;> simp [terc4_characters] at h <;> subst h <;> rfl

theorem control_none_aux (c : Nat) (h : c ∉ control_characters) :
    try_decode_as_control c = none := by
  cases hc : try_decode_as_control c with
  | none => rfl
  | some v => exact absurd (List.getElem?_mem (control_some_aux c v hc)) h

theorem terc4_none_aux (c : Nat) (h : c ∉ terc4_characters) :
    try_decode_as_terc4 c = none := by
  cases hc : try_decode_as_terc4 c with
  | none => rfl
  | some v => exact absurd (List.getElem?_mem (terc4_some_aux c v hc)) h

/-- C1: `try_decode_as_control c` returns a value exactly for the four
characters 0b1101010100, 0b0010101011, 0b0101010100, 0b1010101011, for any
natural number `c`, and the values are 0b00, 0b01, 0b10, 0b11 in that order;
the results are below 4 and pairwise distinct, exactly 4 of the 1024 ten-bit
characters decode, and every other character gives `none`. -/
theorem try_decode_as_control_table :
    (∀ c v : Nat, try_decode_as_control c = some v ↔
      (c = 0b1101010100 ∧ v = 0b00) ∨ (c = 0b0010101011 ∧ v = 0b01) ∨
      (c = 0b0101010100 ∧ v = 0b10) ∨ (c = 0b1010101011 ∧ v = 0b11)) ∧
    (∀ c : Nat, (try_decode_as_control c).isSome ↔
      c = 0b1101010100 ∨ c = 0b0010101011 ∨ c = 0b0101010100 ∨ c = 0b1010101011) ∧
    (∀ c : Nat, ¬ (c = 0b1101010100 ∨ c = 0b0010101011 ∨ c = 0b0101010100 ∨ c = 0b1010101011) →
      try_decode_as_control c = none) ∧
    (∀ c v : Nat, try_decode_as_control c = some v → v < 4) ∧
    (∀ c c2 v : Nat, try_decode_as_control c = some v →
      try_decode_as_control c2 = some v → c = c2) ∧
    ((List.range 1024).filter (fun c => (try_decode_as_control c).isSome)).length = 4 := by
  have key : ∀ c v : Nat, try_decode_as_control c = some v ↔
      (c = 0b1101010100 ∧ v = 0b00) ∨ (c = 0b0010101011 ∧ v = 0b01) ∨
      (c = 0b0101010100 ∧ v = 0b10) ∨ (c = 0b1010101011 ∧ v = 0b11) := by
    intro c v
    constructor
    · intro h
      unfold try_decode_as_control at h
      split at h <;> simp at h <;> subst h <;> simp
    · rintro (⟨rfl, rfl⟩ | ⟨rfl, rfl⟩ | ⟨rfl, rfl⟩ | ⟨rfl, rfl⟩) <;> rfl
  refine ⟨key, ?_, ?_, ?_, ?_, ?_⟩
  · intro c
    rw [Option.isSome_iff_exists]
    constructor
    · rintro ⟨v, hv⟩
      rcases (key c v).mp hv with h | h | h | h <;> simp [h.1]
    · rintro (rfl | rfl | rfl | rfl)
      exacts [⟨0, rfl⟩, ⟨1, rfl⟩, ⟨2, rfl⟩, ⟨3, rfl⟩]
  · intro c hc
    apply control_none_aux
    simpa [control_characters] using hc
  · intro c v h
    rcases (key c v).mp h with h | h | h | h <;> omega
  · intro c c2 v h h2
    have a := control_some_aux c v h
    have b := control_some_aux c2 v h2
    rw [a] at b
    exact Option.some.inj b
  · set_option maxRecDepth 100000 in decide

/-- C2: `try_decode_as_terc4` returns a value for exactly the sixteen
characters of `terc4_characters` (sixteen distinct characters, all below
1024); on them it is one-to-one and onto the values 0..15; and a character in
neither table is decoded by neither `try_decode_as_control` nor
`try_decode_as_terc4`. -/
theorem try_decode_as_terc4_table :
    (∀ c : Nat, (try_decode_as_terc4 c).isSome ↔ c ∈ terc4_characters) ∧
    terc4_characters.length = 16 ∧ terc4_characters.Nodup ∧
    (∀ c ∈ terc4_characters, c < 1024) ∧
    ((List.range 1024).filter (fun c => (try_decode_as_terc4 c).isSome)).length = 16 ∧
    (∀ c v : Nat, try_decode_as_terc4 c = some v → v < 16) ∧
    (∀ c c2 v : Nat, try_decode_as_terc4 c = some v →
      try_decode_as_terc4 c2 = some v → c = c2) ∧
    (∀ v : Nat, v < 16 → ∃ c ∈ terc4_characters, try_decode_as_terc4 c = some v) ∧
    (∀ c : Nat, c ∉ control_characters → c ∉ terc4_characters →
      try_decode_as_control c = none ∧ try_decode_as_terc4 c = none) := by
  refine ⟨?_, rfl, by decide, by decide, ?_, ?_, ?_, ?_, ?_⟩
  · intro c
    rw [Option.isSome_iff_exists]
    constructor
    · rintro ⟨v, hv⟩
      exact List.getElem?_mem (terc4_some_aux c v hv)
    · intro hc
      obtain ⟨v, hv⟩ := List.getElem?_of_mem hc
      exact ⟨v, terc4_index_aux c v hv⟩
  · set_option maxRecDepth 100000 in decide
  · intro c v h
    have := (List.getElem?_eq_some.mp (terc4_some_aux c v h)).1
    simpa [terc4_characters] using this
  · intro c c2 v h h2
    have a := terc4_some_aux c v h
    have b := terc4_some_aux c2 v h2
    rw [a] at b
    exact Option.some.inj b
  · intro v hv
    have hlen : v < terc4_characters.length := by simpa [terc4_characters] using hv
    have hget : terc4_characters[v]? = some (terc4_characters[v]) :=
      List.getElem?_eq_getElem hlen
    exact ⟨terc4_characters[v], List.getElem?_mem hget, terc4_index_aux _ v hget⟩
  · intro c h1 h2
    exact ⟨control_none_aux c h1, terc4_none_aux c h2⟩

/-! ## The symbol codec: data characters -/

set_option maxRecDepth 1000000 in
theorem decode_data_ref_aux : ∀ c, c < 1024 →
    decode_data c = some (decode_ref c) ∧ decode_ref c < 256 ∧
      ∀ i, i < 8 → (decode_ref c).testBit i = decode_ref_bit c i := by
  decide!

set_option maxRecDepth 1000000 in
theorem encode_ref_aux : ∀ v, v < 256 → ∀ inv x : Bool,
    decode_data (encode_ref v inv x) = some v ∧ encode_ref v inv x < 1024 ∧
      (encode_ref v inv x).testBit 9 = inv ∧ (encode_ref v inv x).testBit 8 = x := by
  decide!

set_option maxRecDepth 1000000 in
theorem encode_decode_ref_aux : ∀ c, c < 1024 →
    encode_ref (decode_ref c) (c.testBit 9) (c.testBit 8) = c := by
  decide!

theorem decode_data_some_aux (c v : Nat) (h : decode_data c = some v) :
    c < 1024 ∧ v < 256 := by
  have hc : c < 1024 := by
    by_contra hn
    have hn2 : ¬ c < 0x400 := by simpa using hn
    simp [decode_data, hn2] at h
  refine ⟨hc, ?_⟩
  have := decode_data_ref_aux c hc
  rw [this.1] at h
  cases h
  exact this.2.1

theorem decode_data_none_aux (c : Nat) (h : 1024 ≤ c) : decode_data c = none := by
  have hn : ¬ c < 0x400 := by simpa using h
  simp [decode_data, hn]

/-- C3: for every `c < 1024` the assertion `c < 0x400` of `decode_data` holds
and `decode_data c` returns the reference TMDS decode `decode_ref c`: a value
below 256 whose bit 0 is bit 0 of the low byte `d` of `c` (inverted iff bit 9
of `c` is set) and whose bit `i`, for `i` in 1..7, is `d[i] XOR d[i-1]` when
bit 8 of `c` is set and the negation of that when bit 8 is clear. -/
theorem decode_data_eq_reference (c : Nat) (hc : c < 1024) :
    c < 0x400 ∧
    ∃ v, decode_data c = some v ∧ v = decode_ref c ∧ v < 256 ∧
      v.testBit 0 = (decode_ref_low_byte c).testBit 0 ∧
      ∀ i, 1 ≤ i → i ≤ 7 →
        v.testBit i =
          if c.testBit 8
          then xor ((decode_ref_low_byte c).testBit i) ((decode_ref_low_byte c).testBit (i - 1))
          else !(xor ((decode_ref_low_byte c).testBit i)
                  ((decode_ref_low_byte c).testBit (i - 1))) := by
  obtain ⟨h1, h2, h3⟩ := decode_data_ref_aux c hc
  refine ⟨hc, decode_ref c, h1, rfl, h2, ?_, ?_⟩
  · rw [h3 0 (by omega)]
    simp [decode_ref_bit]
  · intro i hi1 hi7
    rw [h3 i (by omega)]
    have hi0 : i ≠ 0 := by omega
    simp [decode_ref_bit, hi0]

/-- Witness of C3 at the character 0b1011001100. -/
theorem decode_data_eq_reference_witness :
    (0b1011001100 : Nat) < 1024 ∧ decode_data 0b1011001100 = some 0b10101011 :=
  ⟨by decide, by
    obtain ⟨_, v, hv, hv2, _⟩ := decode_data_eq_reference 0b1011001100 (by decide)
    rw [hv, hv2]
    decide⟩

/-- C4: `decode_data` round-trips with the reference encoder `encode_ref`:
decoding an encoded byte gives the byte back, for either polarity and either
choice of bit 8; re-encoding a decoded ten-bit character with its own bits 9
and 8 gives the character back; hence for fixed bits 9 and 8 `decode_data` is
one-to-one on the characters with those top bits and onto 0..255. -/
theorem decode_data_encode_roundtrip :
    (∀ v : Nat, v < 256 → ∀ inv x : Bool, decode_data (encode_ref v inv x) = some v) ∧
    (∀ c : Nat, c < 1024 →
      ∃ v, decode_data c = some v ∧ v < 256 ∧
        encode_ref v (c.testBit 9) (c.testBit 8) = c) ∧
    (∀ c1 c2 : Nat, c1 < 1024 → c2 < 1024 →
      c1.testBit 9 = c2.testBit 9 → c1.testBit 8 = c2.testBit 8 →
      decode_data c1 = decode_data c2 → c1 = c2) ∧
    (∀ inv x : Bool, ∀ v : Nat, v < 256 →
      ∃ c, c < 1024 ∧ c.testBit 9 = inv ∧ c.testBit 8 = x ∧ decode_data c = some v) := by
  refine ⟨fun v hv inv x => (encode_ref_aux v hv inv x).1, ?_, ?_, ?_⟩
  · intro c hc
    exact ⟨decode_ref c, (decode_data_ref_aux c hc).1, (decode_data_ref_aux c hc).2.1,
      encode_decode_ref_aux c hc⟩
  · intro c1 c2 h1 h2 h9 h8 hd
    rw [(decode_data_ref_aux c1 h1).1, (decode_data_ref_aux c2 h2).1] at hd
    have hd2 : decode_ref c1 = decode_ref c2 := Option.some.inj hd
    rw [← encode_decode_ref_aux c1 h1, ← encode_decode_ref_aux c2 h2, hd2, h9, h8]
  · intro inv x v hv
    obtain ⟨a, b, c, d⟩ := encode_ref_aux v hv inv x
    exact ⟨encode_ref v inv x, b, c, d, a⟩

/-! ## The stream validator: which branch a triple takes -/

theorem control_lt_aux (c v : Nat) (h : try_decode_as_control c = some v) : c < 1024 := by
  unfold try_decode_as_control at h
  split at h <;> simp at h <;> omega

theorem validate_control_aux (s : VideoSourceValidation) (ch0 ch1 ch2 c0 c1 c2 : Nat)
    (h0 : try_decode_as_control ch0 = some c0) (h1 : try_decode_as_control ch1 = some c1)
    (h2 : try_decode_as_control ch2 = some c2) :
    validate_characters s ch0 ch1 ch2 = control_branch s c0 c1 c2 := by
  simp [validate_characters, h0, h1, h2, aligned]

theorem validate_guard_band_aux (s : VideoSourceValidation) (ch0 ch1 ch2 : Nat)
    (h : is_video_guard_band ch0 ch1 ch2 = true) :
    validate_characters s ch0 ch1 ch2 = guard_band_branch s := by
  simp only [is_video_guard_band, Bool.and_eq_true, beq_iff_eq] at h
  obtain ⟨⟨rfl, rfl⟩, rfl⟩ := h
  rfl

theorem validate_data_aux (s : VideoSourceValidation) (ch0 ch1 ch2 : Nat)
    (h0 : try_decode_as_control ch0 = none) (h1 : try_decode_as_control ch1 = none)
    (h2 : try_decode_as_control ch2 = none) (h : is_video_guard_band ch0 ch1 ch2 = false) :
    validate_characters s ch0 ch1 ch2 = data_branch s ch0 ch1 ch2 := by
  simp [validate_characters, h0, h1, h2, aligned, h]

theorem validate_misaligned_aux (s : VideoSourceValidation) (ch0 ch1 ch2 : Nat)
    (h : aligned (try_decode_as_control ch0) (try_decode_as_control ch1)
      (try_decode_as_control ch2) = false) :
    validate_characters s ch0 ch1 ch2 = .abort s [] := by
  simp [validate_characters, h]

theorem aligned_iff_aux (ch0 ch1 ch2 : Nat) :
    aligned (try_decode_as_control ch0) (try_decode_as_control ch1)
      (try_decode_as_control ch2) = true ↔
    control_count ch0 ch1 ch2 = 0 ∨ control_count ch0 ch1 ch2 = 3 := by
  unfold aligned control_count
  cases (try_decode_as_control ch0) <;> cases (try_decode_as_control ch1) <;>
    cases (try_decode_as_control ch2) <;> simp

theorem sync_update_buffer_aux (s : VideoSourceValidation) (c0 : Nat) :
    (sync_update s c0).buffer = s.buffer := by
  unfold sync_update
  simp only
  split_ifs <;> rfl

theorem control_branch_buffer_aux (s : VideoSourceValidation) (c0 c1 c2 : Nat) :
    (control_branch s c0 c1 c2).state.buffer = s.buffer := by
  unfold control_branch preamble_update
  simp only
  split_ifs <;> simp [Outcome.state, sync_update_buffer_aux]

theorem guard_band_branch_buffer_aux (s : VideoSourceValidation) :
    (guard_band_branch s).state.buffer = s.buffer := by
  unfold guard_band_branch
  simp only
  split_ifs <;> simp [Outcome.state]

theorem push_pixel_ok_aux (s : VideoSourceValidation) (out : List Message)
    (ch0 ch1 ch2 r g b : Nat) (h2 : decode_data ch2 = some r) (h1 : decode_data ch1 = some g)
    (h0 : decode_data ch0 = some b) :
    push_pixel s out ch0 ch1 ch2 =
      .ok { s with h_active_dots := uincr s.h_active_dots,
                   buffer := s.buffer ++ [{ r := r, g := g, b := b }] } out := by
  have hr : to_char r = r := Nat.mod_eq_of_lt (decode_data_some_aux ch2 r h2).2
  have hg : to_char g = g := Nat.mod_eq_of_lt (decode_data_some_aux ch1 g h1).2
  have hb : to_char b = b := Nat.mod_eq_of_lt (decode_data_some_aux ch0 b h0).2
  simp [push_pixel, h0, h1, h2, hr, hg, hb]

theorem push_pixel_abort_aux (s : VideoSourceValidation) (out : List Message)
    (ch0 ch1 ch2 : Nat) (h : 1024 ≤ ch0 ∨ 1024 ≤ ch1 ∨ 1024 ≤ ch2) :
    push_pixel s out ch0 ch1 ch2 = .abort { s with h_active_dots := uincr s.h_active_dots } out := by
  unfold push_pixel
  simp only
  cases h2 : decode_data ch2 with
  | none => rfl
  | some r =>
    cases h1 : decode_data ch1 with
    | none => rfl
    | some g =>
      cases h0 : decode_data ch0 with
      | none => rfl
      | some b =>
        have a0 := (decode_data_some_aux ch0 b h0).1
        have a1 := (decode_data_some_aux ch1 g h1).1
        have a2 := (decode_data_some_aux ch2 r h2).1
        omega

/-! ## The stream validator: fatal preconditions and the data branch -/

/-- C5: in every state, `validate_characters` ends in an assertion failure
with the buffer as it was (no pixel appended) (a) when exactly one or exactly
two of the channels decode as control codes, (b) when no channel decodes as a
control code, the triple is not the guard band pattern and
`video_data_period` is false, (c) when some channel value is not below 1024;
and the alignment assertion holds whenever none or all three of the channels
decode as control codes. -/
theorem fatal_preconditions_abort (s : VideoSourceValidation) (ch0 ch1 ch2 : Nat) :
    ((control_count ch0 ch1 ch2 = 1 ∨ control_count ch0 ch1 ch2 = 2) →
      validate_characters s ch0 ch1 ch2 = .abort s []) ∧
    (control_count ch0 ch1 ch2 = 0 → is_video_guard_band ch0 ch1 ch2 = false →
      s.video_data_period = false →
      validate_characters s ch0 ch1 ch2 = .abort s []) ∧
    ((1024 ≤ ch0 ∨ 1024 ≤ ch1 ∨ 1024 ≤ ch2) →
      (validate_characters s ch0 ch1 ch2).returned = false ∧
      (validate_characters s ch0 ch1 ch2).state.buffer = s.buffer) ∧
    ((control_count ch0 ch1 ch2 = 0 ∨ control_count ch0 ch1 ch2 = 3) →
      aligned (try_decode_as_control ch0) (try_decode_as_control ch1)
        (try_decode_as_control ch2) = true) := by
  have none_of_count : control_count ch0 ch1 ch2 = 0 →
      try_decode_as_control ch0 = none ∧ try_decode_as_control ch1 = none ∧
        try_decode_as_control ch2 = none := by
    unfold control_count
    cases (try_decode_as_control ch0) <;> cases (try_decode_as_control ch1) <;>
      cases (try_decode_as_control ch2) <;> simp
  refine ⟨?_, ?_, ?_, (aligned_iff_aux ch0 ch1 ch2).mpr⟩
  · intro h
    apply validate_misaligned_aux
    have := aligned_iff_aux ch0 ch1 ch2
    cases ha : aligned (try_decode_as_control ch0) (try_decode_as_control ch1)
      (try_decode_as_control ch2) with
    | false => rfl
    | true => have := this.mp ha; omega
  · intro hc hg hd
    obtain ⟨h0, h1, h2⟩ := none_of_count hc
    rw [validate_data_aux s ch0 ch1 ch2 h0 h1 h2 hg]
    simp [data_branch, hd]
  · intro hbig
    by_cases ha : aligned (try_decode_as_control ch0) (try_decode_as_control ch1)
      (try_decode_as_control ch2) = true
    · rcases (aligned_iff_aux ch0 ch1 ch2).mp ha with hc | hc
      · obtain ⟨h0, h1, h2⟩ := none_of_count hc
        have hg : is_video_guard_band ch0 ch1 ch2 = false := by
          cases hgb : is_video_guard_band ch0 ch1 ch2 with
          | false => rfl
          | true =>
            simp only [is_video_guard_band, Bool.and_eq_true, beq_iff_eq] at hgb
            omega
        rw [validate_data_aux s ch0 ch1 ch2 h0 h1 h2 hg]
        unfold data_branch
        split_ifs <;>
          simp [push_pixel_abort_aux _ _ ch0 ch1 ch2 hbig, Outcome.returned, Outcome.state]
      · exfalso
        have h3 : (try_decode_as_control ch0).isSome = true ∧
            (try_decode_as_control ch1).isSome = true ∧
            (try_decode_as_control ch2).isSome = true := by
          revert hc
          unfold control_count
          cases (try_decode_as_control ch0) <;> cases (try_decode_as_control ch1) <;>
            cases (try_decode_as_control ch2) <;> simp
        obtain ⟨a0, a1, a2⟩ := h3
        obtain ⟨v0, e0⟩ := Option.isSome_iff_exists.mp a0
        obtain ⟨v1, e1⟩ := Option.isSome_iff_exists.mp a1
        obtain ⟨v2, e2⟩ := Option.isSome_iff_exists.mp a2
        have b0 := control_lt_aux ch0 v0 e0
        have b1 := control_lt_aux ch1 v1 e1
        have b2 := control_lt_aux ch2 v2 e2
        omega
    · have hf : aligned (try_decode_as_control ch0) (try_decode_as_control ch1)
          (try_decode_as_control ch2) = false := by simpa using ha
      rw [validate_misaligned_aux s ch0 ch1 ch2 hf]
      exact ⟨rfl, rfl⟩

/-- Witness of C5: a lone control character on channel 0, a data triple fed to
a fresh validator, and an eleven-bit value on channel 2 each abort. -/
theorem fatal_preconditions_abort_witness :
    validate_characters fresh 0b1101010100 0 0 = .abort fresh [] ∧
    validate_characters fresh 0 1 2 = .abort fresh [] ∧
    (validate_characters { fresh with video_data_period := true } 0 1 1024).returned = false :=
  ⟨(fatal_preconditions_abort fresh 0b1101010100 0 0).1 (by decide),
   (fatal_preconditions_abort fresh 0 1 2).2.1 (by decide) (by decide) rfl,
   ((fatal_preconditions_abort { fresh with video_data_period := true } 0 1 1024).2.2.1
      (by decide)).1⟩

/-- C6: in a state with `video_data_period` set (and `h_active_dots = 0` if
`video_guard_band` is set), a triple of ten-bit characters with no control
code that is not the guard band pattern makes `validate_characters` return
with the buffer extended by exactly the pixel `r = decode_data ch2`,
`g = decode_data ch1`, `b = decode_data ch0` and with `h_active_dots`
incremented by one as a `uint`; a control triple and a guard band triple
leave the buffer as it was. -/
theorem data_triple_appends_pixel (s : VideoSourceValidation) (ch0 ch1 ch2 : Nat) :
    (s.video_data_period = true → (s.video_guard_band = true → s.h_active_dots = 0) →
      ch0 < 1024 → ch1 < 1024 → ch2 < 1024 →
      control_count ch0 ch1 ch2 = 0 → is_video_guard_band ch0 ch1 ch2 = false →
      ∃ s1 out r g b, validate_characters s ch0 ch1 ch2 = .ok s1 out ∧
        decode_data ch2 = some r ∧ decode_data ch1 = some g ∧ decode_data ch0 = some b ∧
        s1.buffer = s.buffer ++ [{ r := r, g := g, b := b }] ∧
        s1.h_active_dots = uincr s.h_active_dots ∧
        (s.h_active_dots + 1 < UINT_SIZE → s1.h_active_dots = s.h_active_dots + 1)) ∧
    (control_count ch0 ch1 ch2 = 3 →
      (validate_characters s ch0 ch1 ch2).state.buffer = s.buffer) ∧
    (is_video_guard_band ch0 ch1 ch2 = true →
      (validate_characters s ch0 ch1 ch2).state.buffer = s.buffer) := by
  refine ⟨?_, ?_, ?_⟩
  · intro hd hg b0 b1 b2 hc hgb
    have hnone : try_decode_as_control ch0 = none ∧ try_decode_as_control ch1 = none ∧
        try_decode_as_control ch2 = none := by
      revert hc
      unfold control_count
      cases (try_decode_as_control ch0) <;> cases (try_decode_as_control ch1) <;>
        cases (try_decode_as_control ch2) <;> simp
    obtain ⟨h0, h1, h2⟩ := hnone
    have d0 := (decode_data_ref_aux ch0 b0).1
    have d1 := (decode_data_ref_aux ch1 b1).1
    have d2 := (decode_data_ref_aux ch2 b2).1
    have wrap : ∀ x, x + 1 < UINT_SIZE → uincr x = x + 1 :=
      fun x hx => Nat.mod_eq_of_lt hx
    rw [validate_data_aux s ch0 ch1 ch2 h0 h1 h2 hgb]
    unfold data_branch
    rw [if_pos hd]
    by_cases hvg : s.video_guard_band = true
    · have hz := hg hvg
      rw [if_pos hvg, if_pos hz, push_pixel_ok_aux _ _ ch0 ch1 ch2 _ _ _ d2 d1 d0]
      exact ⟨_, _, _, _, _, rfl, d2, d1, d0, rfl, rfl, fun hx => wrap _ hx⟩
    · rw [if_neg hvg, push_pixel_ok_aux _ _ ch0 ch1 ch2 _ _ _ d2 d1 d0]
      exact ⟨_, _, _, _, _, rfl, d2, d1, d0, rfl, rfl, fun hx => wrap _ hx⟩
  · intro hc
    have h3 : ∃ v0 v1 v2, try_decode_as_control ch0 = some v0 ∧
        try_decode_as_control ch1 = some v1 ∧ try_decode_as_control ch2 = some v2 := by
      revert hc
      unfold control_count
      cases (try_decode_as_control ch0) <;> cases (try_decode_as_control ch1) <;>
        cases (try_decode_as_control ch2) <;> simp
    obtain ⟨v0, v1, v2, e0, e1, e2⟩ := h3
    rw [validate_control_aux s ch0 ch1 ch2 v0 v1 v2 e0 e1 e2]
    exact control_branch_buffer_aux s v0 v1 v2
  · intro hgb
    rw [validate_guard_band_aux s ch0 ch1 ch2 hgb]
    exact guard_band_branch_buffer_aux s

/-- Witness of C6: the data triple (0, 1, 2) in a data period appends the
pixel (248, 253, 254). -/
theorem data_triple_appends_pixel_witness :
    ∃ s1 out r g b,
      validate_characters { fresh with video_data_period := true } 0 1 2 = .ok s1 out ∧
        decode_data 2 = some r ∧ decode_data 1 = some g ∧ decode_data 0 = some b ∧
        s1.buffer = [] ++ [{ r := r, g := g, b := b }] ∧
        s1.h_active_dots = uincr 0 ∧
        ((0 : Nat) + 1 < UINT_SIZE → s1.h_active_dots = 0 + 1) :=
  (data_triple_appends_pixel { fresh with video_data_period := true } 0 1 2).1
    rfl (by intro h; cases h) (by decide) (by decide) (by decide) (by decide) (by decide)

/-! ## The stream validator: the control branch -/

theorem sync_update_phase_aux (s : VideoSourceValidation) (c0 : Nat) :
    (sync_update s c0).control_period = s.control_period ∧
    (sync_update s c0).video_data_period = s.video_data_period ∧
    (sync_update s c0).video_preamble = s.video_preamble ∧
    (sync_update s c0).video_guard_band = s.video_guard_band ∧
    (sync_update s c0).control_period_dots = s.control_period_dots ∧
    (sync_update s c0).preamble_dots = s.preamble_dots ∧
    (sync_update s c0).guard_band_dots = s.guard_band_dots ∧
    (sync_update s c0).buffer = s.buffer := by
  unfold sync_update
  simp only
  split_ifs <;> simp

theorem sync_update_zero_aux (s : VideoSourceValidation) (c0 : Nat) :
    (s.h_active_dots = 0 → (sync_update s c0).h_active_dots = 0) ∧
    (s.v_active_lines = 0 → (sync_update s c0).v_active_lines = 0) := by
  unfold sync_update
  simp only
  split_ifs <;> simp_all

theorem sync_update_sync_aux (s : VideoSourceValidation) (c0 : Nat) :
    (sync_update s c0).previous_h_sync = ((c0 &&& 0x1) != 0) ∧
    (sync_update s c0).previous_v_sync =
      (if (!s.previous_h_sync && ((c0 &&& 0x1) != 0)) = true
        then ((c0 &&& 0x2) != 0) else s.previous_v_sync) := by
  unfold sync_update
  simp only
  split_ifs <;> simp

theorem sync_update_frames_aux (s : VideoSourceValidation) (c0 : Nat) :
    (sync_update s c0).frames =
      (if (!s.previous_h_sync && ((c0 &&& 0x1) != 0) &&
            (!s.previous_v_sync && ((c0 &&& 0x2) != 0))) = true
        then uincr s.frames else s.frames) ∧
    ((!s.previous_h_sync && ((c0 &&& 0x1) != 0) &&
        (!s.previous_v_sync && ((c0 &&& 0x2) != 0))) = true →
      (sync_update s c0).v_active_lines = 0) := by
  unfold sync_update
  simp only
  split_ifs <;> simp_all

theorem sync_update_width_aux (s : VideoSourceValidation) (c0 : Nat) :
    (sync_update s c0).previous_h_active_dots =
      (if (!s.previous_h_sync && ((c0 &&& 0x1) != 0)) = true ∧
            (s.previous_h_active_dots = 0 ∨ s.h_active_dots ≠ 0)
        then s.h_active_dots else s.previous_h_active_dots) ∧
    ((!s.previous_h_sync && ((c0 &&& 0x1) != 0)) = true →
      (sync_update s c0).h_active_dots = 0) := by
  unfold sync_update
  simp only
  split_ifs <;> simp_all

theorem preamble_update_keeps_aux (s s1 : VideoSourceValidation) (c0 c1 c2 : Nat)
    (out : List Message) (h : preamble_update s c0 c1 c2 = .ok s1 out) :
    s1.previous_h_sync = s.previous_h_sync ∧ s1.previous_v_sync = s.previous_v_sync ∧
    s1.frames = s.frames ∧ s1.previous_h_active_dots = s.previous_h_active_dots ∧
    s1.h_active_dots = s.h_active_dots ∧ s1.v_active_lines = s.v_active_lines := by
  unfold preamble_update at h
  simp only at h
  split_ifs at h <;> cases h <;> simp

theorem control_branch_ok_aux (s s2 : VideoSourceValidation) (c0 c1 c2 : Nat)
    (out : List Message) (h : control_branch s c0 c1 c2 = .ok s2 out) :
    ∃ s1, s2 = sync_update s1 c0 ∧
      s1.previous_h_sync = s.previous_h_sync ∧ s1.previous_v_sync = s.previous_v_sync ∧
      s1.frames = s.frames ∧ s1.previous_h_active_dots = s.previous_h_active_dots ∧
      s1.h_active_dots = s.h_active_dots ∧ s1.v_active_lines = s.v_active_lines := by
  unfold control_branch at h
  simp only at h
  split at h
  · rename_i s1 out1 hp
    cases h
    have keep := preamble_update_keeps_aux _ s1 c0 c1 c2 _ hp
    exact ⟨s1, rfl, by simpa using keep⟩
  · cases h

theorem guard_band_branch_width_aux (s s1 : VideoSourceValidation) (out : List Message)
    (h : guard_band_branch s = .ok s1 out) :
    s1.previous_h_active_dots = s.previous_h_active_dots := by
  unfold guard_band_branch at h
  simp only at h
  split_ifs at h <;> cases h
  all_goals rfl

theorem push_pixel_width_aux (s s1 : VideoSourceValidation) (ch0 ch1 ch2 : Nat)
    (o out : List Message) (h : push_pixel s o ch0 ch1 ch2 = .ok s1 out) :
    s1.previous_h_active_dots = s.previous_h_active_dots := by
  unfold push_pixel at h
  simp only at h
  cases h2 : decode_data ch2 with
  | none => rw [h2] at h; cases h
  | some r =>
    cases h1 : decode_data ch1 with
    | none => rw [h2, h1] at h; cases h
    | some g =>
      cases h0 : decode_data ch0 with
      | none => rw [h2, h1, h0] at h; cases h
      | some b =>
        rw [h2, h1, h0] at h
        cases h
        rfl

theorem data_branch_width_aux (s s1 : VideoSourceValidation) (ch0 ch1 ch2 : Nat)
    (out : List Message) (h : data_branch s ch0 ch1 ch2 = .ok s1 out) :
    s1.previous_h_active_dots = s.previous_h_active_dots := by
  unfold data_branch at h
  split_ifs at h
  all_goals
    have w := push_pixel_width_aux _ s1 ch0 ch1 ch2 _ out h
    exact w

/-- C10: whenever `validate_characters` returns, `previous_h_active_dots`
afterwards is the old `h_active_dots` if channel 0 holds a control character
whose bit 0 is set while `previous_h_sync` was false (a horizontal sync rising
edge) and the old `previous_h_active_dots` was 0 or the old `h_active_dots`
was not 0, and is unchanged otherwise; so a non-zero recorded width is never
replaced by zero, and `h_active_dots` is 0 after every horizontal sync rising
edge. -/
theorem previous_h_active_dots_update (s s1 : VideoSourceValidation) (ch0 ch1 ch2 : Nat)
    (out : List Message) (h : validate_characters s ch0 ch1 ch2 = .ok s1 out) :
    s1.previous_h_active_dots =
      (if (∃ c0, try_decode_as_control ch0 = some c0 ∧ (c0 &&& 0x1) ≠ 0) ∧
            s.previous_h_sync = false ∧
            (s.previous_h_active_dots = 0 ∨ s.h_active_dots ≠ 0)
        then s.h_active_dots else s.previous_h_active_dots) ∧
    (s.previous_h_active_dots ≠ 0 → s1.previous_h_active_dots ≠ 0) ∧
    ((∃ c0, try_decode_as_control ch0 = some c0 ∧ (c0 &&& 0x1) ≠ 0) →
      s.previous_h_sync = false → s1.h_active_dots = 0) := by
  have main : s1.previous_h_active_dots =
      (if (∃ c0, try_decode_as_control ch0 = some c0 ∧ (c0 &&& 0x1) ≠ 0) ∧
            s.previous_h_sync = false ∧
            (s.previous_h_active_dots = 0 ∨ s.h_active_dots ≠ 0)
        then s.h_active_dots else s.previous_h_active_dots) ∧
      ((∃ c0, try_decode_as_control ch0 = some c0 ∧ (c0 &&& 0x1) ≠ 0) →
        s.previous_h_sync = false → s1.h_active_dots = 0) := by
    by_cases ha : aligned (try_decode_as_control ch0) (try_decode_as_control ch1)
        (try_decode_as_control ch2) = true
    · cases e0 : try_decode_as_control ch0 with
      | none =>
        have hc : control_count ch0 ch1 ch2 = 0 := by
          rcases (aligned_iff_aux ch0 ch1 ch2).mp ha with hc | hc
          · exact hc
          · exfalso
            revert hc
            unfold control_count
            rw [e0]
            cases (try_decode_as_control ch1) <;> cases (try_decode_as_control ch2) <;> simp
        have hnone : try_decode_as_control ch1 = none ∧ try_decode_as_control ch2 = none := by
          revert hc
          unfold control_count
          cases (try_decode_as_control ch0) <;> cases (try_decode_as_control ch1) <;>
            cases (try_decode_as_control ch2) <;> simp
        have hw : s1.previous_h_active_dots = s.previous_h_active_dots := by
          cases hg : is_video_guard_band ch0 ch1 ch2 with
          | true =>
            rw [validate_guard_band_aux s ch0 ch1 ch2 hg] at h
            exact guard_band_branch_width_aux s s1 out h
          | false =>
            rw [validate_data_aux s ch0 ch1 ch2 e0 hnone.1 hnone.2 hg] at h
            exact data_branch_width_aux s s1 ch0 ch1 ch2 out h
        simp [hw]
      | some c0 =>
        have h3 : ∃ c1 c2, try_decode_as_control ch1 = some c1 ∧
            try_decode_as_control ch2 = some c2 := by
          revert ha
          unfold aligned
          rw [e0]
          cases (try_decode_as_control ch1) <;> cases (try_decode_as_control ch2) <;> simp
        obtain ⟨c1, c2, e1, e2⟩ := h3
        rw [validate_control_aux s ch0 ch1 ch2 c0 c1 c2 e0 e1 e2] at h
        obtain ⟨m, rfl, k1, _, _, k4, k5, _⟩ := control_branch_ok_aux s _ c0 c1 c2 out h
        obtain ⟨w1, w2⟩ := sync_update_width_aux m c0
        rw [w1, k1, k4, k5]
        rw [k1] at w2
        constructor
        · by_cases hb : c0 % 2 = 1 <;> cases hp : s.previous_h_sync <;>
            simp [Nat.and_one_is_mod, hb]
        · rintro ⟨c, hc, hbit⟩ hp
          cases hc
          apply w2
          rw [Nat.and_one_is_mod] at hbit
          have hb : c0 % 2 = 1 := by omega
          simp [Nat.and_one_is_mod, hp, hb]
    · have hf : aligned (try_decode_as_control ch0) (try_decode_as_control ch1)
          (try_decode_as_control ch2) = false := by simpa using ha
      rw [validate_misaligned_aux s ch0 ch1 ch2 hf] at h
      cases h
  refine ⟨main.1, ?_, main.2⟩
  intro hne
  rw [main.1]
  split_ifs with hc
  · rcases hc.2.2 with h0 | h0
    · exact absurd h0 hne
    · exact h0
  · exact hne

/-- Witness of C10: a line of width 5 is recorded at the next horizontal sync
rising edge. -/
theorem previous_h_active_dots_update_witness :
    ({ fresh with h_active_dots := 5 } : VideoSourceValidation).h_active_dots = 5 ∧
    ∃ s1 : VideoSourceValidation, s1.previous_h_active_dots = 5 ∧ s1.h_active_dots = 0 ∧
      validate_characters { fresh with h_active_dots := 5 }
        0b0010101011 0b1101010100 0b1101010100 = .ok s1 [] :=
  ⟨rfl, _,
    (by
      rw [(previous_h_active_dots_update { fresh with h_active_dots := 5 } _
        0b0010101011 0b1101010100 0b1101010100 [] rfl).1]
      decide),
    (previous_h_active_dots_update { fresh with h_active_dots := 5 } _
      0b0010101011 0b1101010100 0b1101010100 [] rfl).2.2 ⟨1, by decide⟩ rfl,
    rfl⟩

/-! ## Streams: how `feed` composes, and one step per kind of triple -/

theorem feed_append_ok_aux (xs ys : List Triple) :
    ∀ (s s1 : VideoSourceValidation) (o1 : List Message), feed s xs = .ok s1 o1 →
      feed s (xs ++ ys) =
        match feed s1 ys with
        | .ok s2 o2 => .ok s2 (o1 ++ o2)
        | .abort s2 o2 => .abort s2 (o1 ++ o2) := by
  induction xs with
  | nil =>
    intro s s1 o1 h
    simp only [feed] at h
    cases h
    cases hf : feed s ys <;> simp [hf]
  | cons t rest ih =>
    intro s s1 o1 h
    simp only [feed, List.cons_append] at h ⊢
    cases hv : validate_characters s t.1 t.2.1 t.2.2 with
    | abort sa oa => rw [hv] at h; cases h
    | ok sa oa =>
      rw [hv] at h
      simp only at h ⊢
      cases hr : feed sa rest with
      | abort sb ob => rw [hr] at h; cases h
      | ok sb ob =>
        rw [hr] at h
        cases h
        rw [show rest.append ys = rest ++ ys from rfl, ih sa _ ob hr]
        cases hy : feed s1 ys <;> simp [List.append_assoc]

theorem feed_append_abort_aux (xs ys : List Triple) :
    ∀ (s s1 : VideoSourceValidation) (o1 : List Message), feed s xs = .abort s1 o1 →
      feed s (xs ++ ys) = .abort s1 o1 := by
  induction xs with
  | nil => intro s s1 o1 h; simp [feed] at h
  | cons t rest ih =>
    intro s s1 o1 h
    simp only [feed, List.cons_append] at h ⊢
    cases hv : validate_characters s t.1 t.2.1 t.2.2 with
    | abort sa oa => rw [hv] at h; exact h
    | ok sa oa =>
      rw [hv] at h
      simp only at h ⊢
      cases hr : feed sa rest with
      | abort sb ob =>
        rw [hr] at h
        cases h
        rw [show rest.append ys = rest ++ ys from rfl, ih sa _ ob hr]
      | ok sb ob => rw [hr] at h; cases h

theorem feed_cons_ok_aux (s s1 : VideoSourceValidation) (t : Triple) (rest : List Triple)
    (o1 : List Message) (h : validate_characters s t.1 t.2.1 t.2.2 = .ok s1 o1) :
    feed s (t :: rest) =
      match feed s1 rest with
      | .ok s2 o2 => .ok s2 (o1 ++ o2)
      | .abort s2 o2 => .abort s2 (o1 ++ o2) := by
  simp only [feed, h]

theorem control_step_plain_aux (s : VideoSourceValidation) (t : Triple)
    (hc : is_control_triple t = true) (hp : is_preamble_triple t = false) :
    ∃ c0, try_decode_as_control t.1 = some c0 ∧
      validate_characters s t.1 t.2.1 t.2.2 =
        .ok (sync_update { s with video_data_period := false, control_period := true,
                                  control_period_dots := uincr s.control_period_dots } c0) [] := by
  unfold is_control_triple at hc
  unfold is_preamble_triple at hp
  cases e0 : try_decode_as_control t.1 with
  | none => simp [e0] at hc
  | some c0 =>
    cases e1 : try_decode_as_control t.2.1 with
    | none => simp [e1] at hc
    | some c1 =>
      cases e2 : try_decode_as_control t.2.2 with
      | none => simp [e2] at hc
      | some c2 =>
        refine ⟨c0, rfl, ?_⟩
        rw [validate_control_aux s _ _ _ c0 c1 c2 e0 e1 e2]
        simp only [e0, e1, e2, Option.isSome_some, Bool.true_and, Bool.and_eq_false_iff,
          beq_eq_false_iff_ne, ne_eq, Option.some.injEq] at hp
        have hv : is_video_preamble c0 c1 c2 = false := by
          unfold is_video_preamble
          rcases hp with hp | hp <;> simp [hp]
        simp [control_branch, preamble_update, hv]

theorem preamble_step_aux (s : VideoSourceValidation) (t : Triple)
    (hp : is_preamble_triple t = true) :
    ∃ c0, try_decode_as_control t.1 = some c0 ∧
      validate_characters s t.1 t.2.1 t.2.2 = control_branch s c0 0b01 0b00 := by
  unfold is_preamble_triple at hp
  cases e0 : try_decode_as_control t.1 with
  | none => simp [e0] at hp
  | some c0 =>
    simp only [e0, Option.isSome_some, Bool.true_and, Bool.and_eq_true, beq_iff_eq] at hp
    exact ⟨c0, rfl, validate_control_aux s _ _ _ c0 1 0 e0 hp.1 hp.2⟩

theorem preamble_first_aux (s : VideoSourceValidation) (c0 : Nat)
    (hv : s.video_preamble = false) (hz : s.preamble_dots = 0) :
    control_branch s c0 0b01 0b00 =
      .ok (sync_update { s with video_data_period := false, control_period := true,
                                control_period_dots := uincr s.control_period_dots,
                                video_preamble := true, preamble_dots := 1 } c0)
        (if uincr s.control_period_dots < 4
          then [Message.preamble_spacing (uincr s.control_period_dots)] else []) := by
  simp [control_branch, preamble_update, is_video_preamble, hv, hz, uincr, UINT_SIZE]

theorem preamble_next_aux (s : VideoSourceValidation) (c0 : Nat)
    (hv : s.video_preamble = true) :
    control_branch s c0 0b01 0b00 =
      .ok (sync_update { s with video_data_period := false, control_period := true,
                                control_period_dots := uincr s.control_period_dots,
                                preamble_dots := uincr s.preamble_dots } c0)
        (if uincr s.preamble_dots > 8
          then [Message.preamble_too_long (uincr s.preamble_dots)] else []) := by
  simp [control_branch, preamble_update, is_video_preamble, hv]

theorem data_step_aux (s : VideoSourceValidation) (t : Triple)
    (hd : is_data_triple t = true) (hv : s.video_data_period = true)
    (hg : s.video_guard_band = true → s.h_active_dots = 0) :
    validate_characters s t.1 t.2.1 t.2.2 =
      .ok { s with video_guard_band := false,
                   guard_band_dots := if s.video_guard_band then 0 else s.guard_band_dots,
                   h_active_dots := uincr s.h_active_dots,
                   buffer := s.buffer ++ [pixel_of t] }
        (if s.video_guard_band = true ∧ s.guard_band_dots ≠ 2
          then [Message.guard_band_incorrect_length s.guard_band_dots] else []) := by
  simp only [is_data_triple, Bool.and_eq_true, decide_eq_true_eq, Option.isNone_iff_eq_none,
    Bool.not_eq_true'] at hd
  obtain ⟨⟨⟨⟨⟨⟨b0, b1⟩, b2⟩, h0⟩, h1⟩, h2⟩, hgb⟩ := hd
  have d0 := (decode_data_ref_aux t.1 b0).1
  have d1 := (decode_data_ref_aux t.2.1 b1).1
  have d2 := (decode_data_ref_aux t.2.2 b2).1
  rw [validate_data_aux s _ _ _ h0 h1 h2 hgb]
  unfold data_branch
  rw [if_pos hv]
  by_cases hvg : s.video_guard_band = true
  · rw [if_pos hvg, if_pos (hg hvg), push_pixel_ok_aux _ _ _ _ _ _ _ _ d2 d1 d0]
    simp [hvg, pixel_of, d0, d1, d2, hg hvg]
  · rw [if_neg hvg, push_pixel_ok_aux _ _ _ _ _ _ _ _ d2 d1 d0]
    have hf : s.video_guard_band = false := by simpa using hvg
    simp [hf, pixel_of, d0, d1, d2]

/-! ## Streams: runs of one kind of triple -/

theorem plain_step_facts_aux (s : VideoSourceValidation) (t : Triple)
    (hc : is_control_triple t = true) (hp : is_preamble_triple t = false) :
    ∃ s1, validate_characters s t.1 t.2.1 t.2.2 = .ok s1 [] ∧
      s1.control_period_dots = uincr s.control_period_dots ∧
      s1.video_preamble = s.video_preamble ∧ s1.preamble_dots = s.preamble_dots ∧
      s1.video_guard_band = s.video_guard_band ∧ s1.guard_band_dots = s.guard_band_dots ∧
      s1.buffer = s.buffer ∧ (s.h_active_dots = 0 → s1.h_active_dots = 0) ∧
      (s.v_active_lines = 0 → s1.v_active_lines = 0) := by
  obtain ⟨c0, _, hstep⟩ := control_step_plain_aux s t hc hp
  obtain ⟨_, _, p3, p4, p5, p6, p7, p8⟩ := sync_update_phase_aux
    { s with video_data_period := false, control_period := true,
             control_period_dots := uincr s.control_period_dots } c0
  obtain ⟨z1, z2⟩ := sync_update_zero_aux
    { s with video_data_period := false, control_period := true,
             control_period_dots := uincr s.control_period_dots } c0
  exact ⟨_, hstep, p5, p3, p6, p4, p7, p8, z1, z2⟩

theorem first_preamble_step_facts_aux (s : VideoSourceValidation) (t : Triple)
    (hp : is_preamble_triple t = true) (hv : s.video_preamble = false)
    (hz : s.preamble_dots = 0) :
    ∃ s1, validate_characters s t.1 t.2.1 t.2.2 =
        .ok s1 (if uincr s.control_period_dots < 4
          then [Message.preamble_spacing (uincr s.control_period_dots)] else []) ∧
      s1.control_period_dots = uincr s.control_period_dots ∧
      s1.video_preamble = true ∧ s1.preamble_dots = 1 ∧
      s1.video_guard_band = s.video_guard_band ∧ s1.guard_band_dots = s.guard_band_dots ∧
      s1.buffer = s.buffer ∧ (s.h_active_dots = 0 → s1.h_active_dots = 0) ∧
      (s.v_active_lines = 0 → s1.v_active_lines = 0) := by
  obtain ⟨c0, _, hstep⟩ := preamble_step_aux s t hp
  rw [preamble_first_aux s c0 hv hz] at hstep
  obtain ⟨_, _, p3, p4, p5, p6, p7, p8⟩ := sync_update_phase_aux
    { s with video_data_period := false, control_period := true,
             control_period_dots := uincr s.control_period_dots,
             video_preamble := true, preamble_dots := 1 } c0
  obtain ⟨z1, z2⟩ := sync_update_zero_aux
    { s with video_data_period := false, control_period := true,
             control_period_dots := uincr s.control_period_dots,
             video_preamble := true, preamble_dots := 1 } c0
  exact ⟨_, hstep, p5, p3, p6, p4, p7, p8, z1, z2⟩

theorem next_preamble_step_facts_aux (s : VideoSourceValidation) (t : Triple)
    (hp : is_preamble_triple t = true) (hv : s.video_preamble = true) :
    ∃ s1, validate_characters s t.1 t.2.1 t.2.2 =
        .ok s1 (if uincr s.preamble_dots > 8
          then [Message.preamble_too_long (uincr s.preamble_dots)] else []) ∧
      s1.control_period_dots = uincr s.control_period_dots ∧
      s1.video_preamble = true ∧ s1.preamble_dots = uincr s.preamble_dots ∧
      s1.video_guard_band = s.video_guard_band ∧ s1.guard_band_dots = s.guard_band_dots ∧
      s1.buffer = s.buffer ∧ (s.h_active_dots = 0 → s1.h_active_dots = 0) ∧
      (s.v_active_lines = 0 → s1.v_active_lines = 0) := by
  obtain ⟨c0, _, hstep⟩ := preamble_step_aux s t hp
  rw [preamble_next_aux s c0 hv] at hstep
  obtain ⟨_, _, p3, p4, p5, p6, p7, p8⟩ := sync_update_phase_aux
    { s with video_data_period := false, control_period := true,
             control_period_dots := uincr s.control_period_dots,
             preamble_dots := uincr s.preamble_dots } c0
  obtain ⟨z1, z2⟩ := sync_update_zero_aux
    { s with video_data_period := false, control_period := true,
             control_period_dots := uincr s.control_period_dots,
             preamble_dots := uincr s.preamble_dots } c0
  exact ⟨_, hstep, p5, p3.trans hv, p6, p4, p7, p8, z1, z2⟩

theorem uincr_lt_aux (x : Nat) : uincr x < UINT_SIZE := Nat.mod_lt _ (by decide)

theorem control_run_aux (l : List Triple) :
    ∀ s : VideoSourceValidation,
      (∀ t ∈ l, is_control_triple t = true ∧ is_preamble_triple t = false) →
      s.control_period_dots < UINT_SIZE →
      ∃ s1, feed s l = .ok s1 [] ∧
        s1.control_period_dots = (s.control_period_dots + l.length) % UINT_SIZE ∧
        s1.video_preamble = s.video_preamble ∧ s1.preamble_dots = s.preamble_dots ∧
        s1.video_guard_band = s.video_guard_band ∧ s1.guard_band_dots = s.guard_band_dots ∧
        s1.buffer = s.buffer ∧ (s.h_active_dots = 0 → s1.h_active_dots = 0) ∧
        (s.v_active_lines = 0 → s1.v_active_lines = 0) := by
  induction l with
  | nil =>
    intro s _ hc
    exact ⟨s, rfl, (Nat.mod_eq_of_lt hc).symm, rfl, rfl, rfl, rfl, rfl, id, id⟩
  | cons t rest ih =>
    intro s hl hc
    obtain ⟨hct, hpt⟩ := hl t (List.mem_cons_self t rest)
    obtain ⟨m, hstep, p1, p2, p3, p4, p5, p6, p7, p8⟩ := plain_step_facts_aux s t hct hpt
    obtain ⟨s1, hf, q1, q2, q3, q4, q5, q6, q7, q8⟩ :=
      ih m (fun u hu => hl u (List.mem_cons_of_mem t hu)) (p1 ▸ uincr_lt_aux _)
    refine ⟨s1, ?_, ?_, ?_, ?_, ?_, ?_, ?_, ?_, ?_⟩
    · rw [feed_cons_ok_aux s m t rest [] hstep, hf]
      rfl
    · rw [q1, p1]
      simp only [uincr, UINT_SIZE, List.length_cons]
      omega
    · rw [q2, p2]
    · rw [q3, p3]
    · rw [q4, p4]
    · rw [q5, p5]
    · rw [q6, p6]
    · exact fun h => q7 (p7 h)
    · exact fun h => q8 (p8 h)

theorem preamble_run_aux (l : List Triple) :
    ∀ s : VideoSourceValidation,
      (∀ t ∈ l, is_preamble_triple t = true) → s.video_preamble = true →
      s.control_period_dots < UINT_SIZE → s.preamble_dots < UINT_SIZE →
      ∃ s1 out, feed s l = .ok s1 out ∧
        s1.preamble_dots = (s.preamble_dots + l.length) % UINT_SIZE ∧
        s1.control_period_dots = (s.control_period_dots + l.length) % UINT_SIZE ∧
        s1.video_guard_band = s.video_guard_band ∧ s1.guard_band_dots = s.guard_band_dots ∧
        s1.buffer = s.buffer ∧ (s.h_active_dots = 0 → s1.h_active_dots = 0) ∧
        (s.v_active_lines = 0 → s1.v_active_lines = 0) ∧
        out.countP Message.is_preamble_incorrect_length = 0 ∧
        (s.preamble_dots + l.length ≤ 8 → out = []) := by
  induction l with
  | nil =>
    intro s _ _ hc hp
    exact ⟨s, [], rfl, (Nat.mod_eq_of_lt hp).symm, (Nat.mod_eq_of_lt hc).symm, rfl, rfl, rfl,
      id, id, rfl, fun _ => rfl⟩
  | cons t rest ih =>
    intro s hl hv hc hp
    obtain ⟨m, hstep, p1, p2, p3, p4, p5, p6, p7, p8⟩ :=
      next_preamble_step_facts_aux s t (hl t (List.mem_cons_self t rest)) hv
    obtain ⟨s1, out, hf, q1, q2, q3, q4, q5, q6, q7, q8, q9⟩ :=
      ih m (fun u hu => hl u (List.mem_cons_of_mem t hu)) p2 (p1 ▸ uincr_lt_aux _)
        (p3 ▸ uincr_lt_aux _)
    refine ⟨s1, (if uincr s.preamble_dots > 8
      then [Message.preamble_too_long (uincr s.preamble_dots)] else []) ++ out,
      ?_, ?_, ?_, ?_, ?_, ?_, ?_, ?_, ?_, ?_⟩
    · rw [feed_cons_ok_aux s m t rest _ hstep, hf]
    · rw [q1, p3]
      simp only [uincr, UINT_SIZE, List.length_cons]
      omega
    · rw [q2, p1]
      simp only [uincr, UINT_SIZE, List.length_cons]
      omega
    · rw [q3, p4]
    · rw [q4, p5]
    · rw [q5, p6]
    · exact fun h => q6 (p7 h)
    · exact fun h => q7 (p8 h)
    · rw [List.countP_append, q8]
      split_ifs <;> rfl
    · intro hle
      rw [List.length_cons] at hle
      have hsmall : ¬ uincr s.preamble_dots > 8 := by
        simp only [uincr, UINT_SIZE]
        omega
      rw [if_neg hsmall, List.nil_append]
      apply q9
      rw [p3]
      simp only [uincr, UINT_SIZE]
      omega

theorem preamble_start_aux (l : List Triple) (s : VideoSourceValidation)
    (hl : ∀ t ∈ l, is_preamble_triple t = true) (hv : s.video_preamble = false)
    (hz : s.preamble_dots = 0) (hc : s.control_period_dots < UINT_SIZE) :
    ∃ s1 out, feed s l = .ok s1 out ∧
      s1.preamble_dots = l.length % UINT_SIZE ∧
      s1.control_period_dots = (s.control_period_dots + l.length) % UINT_SIZE ∧
      s1.video_guard_band = s.video_guard_band ∧ s1.guard_band_dots = s.guard_band_dots ∧
      s1.buffer = s.buffer ∧ (s.h_active_dots = 0 → s1.h_active_dots = 0) ∧
      (s.v_active_lines = 0 → s1.v_active_lines = 0) ∧
      out.countP Message.is_preamble_incorrect_length = 0 ∧
      (3 ≤ s.control_period_dots → s.control_period_dots + 1 < UINT_SIZE →
        l.length ≤ 8 → out = []) := by
  cases l with
  | nil =>
    exact ⟨s, [], rfl, by simp [hz], (Nat.mod_eq_of_lt hc).symm, rfl, rfl, rfl, id, id, rfl,
      fun _ _ _ => rfl⟩
  | cons t rest =>
    obtain ⟨m, hstep, p1, p2, p3, p4, p5, p6, p7, p8⟩ :=
      first_preamble_step_facts_aux s t (hl t (List.mem_cons_self t rest)) hv hz
    obtain ⟨s1, out, hf, q1, q2, q3, q4, q5, q6, q7, q8, q9⟩ :=
      preamble_run_aux rest m (fun u hu => hl u (List.mem_cons_of_mem t hu)) p2
        (p1 ▸ uincr_lt_aux _) (p3 ▸ (by decide))
    refine ⟨s1, (if uincr s.control_period_dots < 4
      then [Message.preamble_spacing (uincr s.control_period_dots)] else []) ++ out,
      ?_, ?_, ?_, ?_, ?_, ?_, ?_, ?_, ?_, ?_⟩
    · rw [feed_cons_ok_aux s m t rest _ hstep, hf]
    · rw [q1, p3]
      simp only [UINT_SIZE, List.length_cons]
      omega
    · rw [q2, p1]
      simp only [uincr, UINT_SIZE, List.length_cons]
      omega
    · rw [q3, p4]
    · rw [q4, p5]
    · rw [q5, p6]
    · exact fun h => q6 (p7 h)
    · exact fun h => q7 (p8 h)
    · rw [List.countP_append, q8]
      split_ifs <;> rfl
    · intro h3 hlt hle
      rw [List.length_cons] at hle
      have hsmall : ¬ uincr s.control_period_dots < 4 := by
        simp only [uincr, UINT_SIZE] at hlt ⊢
        omega
      rw [if_neg hsmall, List.nil_append]
      apply q9
      rw [p3]
      omega

theorem data_step_facts_aux (s : VideoSourceValidation) (t : Triple)
    (hd : is_data_triple t = true) (hv : s.video_data_period = true)
    (hg : s.video_guard_band = true → s.h_active_dots = 0) :
    ∃ s1, validate_characters s t.1 t.2.1 t.2.2 =
        .ok s1 (if s.video_guard_band = true ∧ s.guard_band_dots ≠ 2
          then [Message.guard_band_incorrect_length s.guard_band_dots] else []) ∧
      s1.buffer = s.buffer ++ [pixel_of t] ∧ s1.video_data_period = true ∧
      s1.video_guard_band = false ∧ s1.h_active_dots = uincr s.h_active_dots ∧
      s1.control_period_dots = s.control_period_dots ∧
      s1.preamble_dots = s.preamble_dots ∧ s1.video_preamble = s.video_preamble :=
  ⟨_, data_step_aux s t hd hv hg, rfl, hv, rfl, rfl, rfl, rfl, rfl⟩

theorem data_run_aux (l : List Triple) :
    ∀ s : VideoSourceValidation,
      (∀ t ∈ l, is_data_triple t = true) → s.video_data_period = true →
      (s.video_guard_band = true → s.h_active_dots = 0 ∧ s.guard_band_dots = 2) →
      ∃ s1, feed s l = .ok s1 [] ∧ s1.buffer = s.buffer ++ l.map pixel_of ∧
        s1.control_period_dots = s.control_period_dots ∧
        s1.preamble_dots = s.preamble_dots ∧ s1.video_preamble = s.video_preamble := by
  induction l with
  | nil =>
    intro s _ _ _
    exact ⟨s, rfl, by simp, rfl, rfl, rfl⟩
  | cons t rest ih =>
    intro s hl hv hg
    obtain ⟨m, hstep, p1, p2, p3, _, p5, p6, p7⟩ :=
      data_step_facts_aux s t (hl t (List.mem_cons_self t rest)) hv (fun h => (hg h).1)
    have hout : (if s.video_guard_band = true ∧ s.guard_band_dots ≠ 2
        then [Message.guard_band_incorrect_length s.guard_band_dots] else []) = [] := by
      rw [if_neg]
      rintro ⟨a, b⟩
      exact b (hg a).2
    rw [hout] at hstep
    obtain ⟨s1, hf, q1, q2, q3, q4⟩ :=
      ih m (fun u hu => hl u (List.mem_cons_of_mem t hu)) p2
        (by intro h; rw [p3] at h; cases h)
    refine ⟨s1, ?_, ?_, q2.trans p5, q3.trans p6, q4.trans p7⟩
    · rw [feed_cons_ok_aux s m t rest [] hstep, hf]
      rfl
    · rw [q1, p1]
      simp

/-! ## Streams: a line from a fresh validator -/

theorem feed_append_returns_aux (xs ys : List Triple) (s s1 s2 : VideoSourceValidation)
    (o1 o2 : List Message) (h1 : feed s xs = .ok s1 o1) (h2 : feed s1 ys = .ok s2 o2) :
    feed s (xs ++ ys) = .ok s2 (o1 ++ o2) := by
  rw [feed_append_ok_aux xs ys s s1 o1 h1, h2]

theorem guard_band_pair_aux (s : VideoSourceValidation) (hg : s.video_guard_band = false)
    (hz : s.guard_band_dots = 0) (hc : s.control_period_dots > s.preamble_dots) :
    ∃ s2 s3,
      validate_characters s guard_band.1 guard_band.2.1 guard_band.2.2 =
        .ok s2 (if s.preamble_dots ≠ 8
          then [Message.preamble_incorrect_length s.preamble_dots] else []) ∧
      s2.video_preamble = false ∧ s2.preamble_dots = 0 ∧ s2.control_period_dots = 0 ∧
      s2.video_guard_band = true ∧ s2.video_data_period = true ∧ s2.guard_band_dots = 1 ∧
      s2.v_active_lines = uincr s.v_active_lines ∧
      validate_characters s2 guard_band.1 guard_band.2.1 guard_band.2.2 = .ok s3 [] ∧
      s3.video_preamble = false ∧ s3.preamble_dots = 0 ∧ s3.control_period_dots = 0 ∧
      s3.video_guard_band = true ∧ s3.video_data_period = true ∧ s3.guard_band_dots = 2 ∧
      s3.h_active_dots = s.h_active_dots ∧ s3.buffer = s.buffer ∧
      feed s [guard_band, guard_band] =
        .ok s3 (if s.preamble_dots ≠ 8
          then [Message.preamble_incorrect_length s.preamble_dots] else []) := by
  have e1 : validate_characters s guard_band.1 guard_band.2.1 guard_band.2.2 =
      .ok { s with video_preamble := false, control_period_dots := 0, preamble_dots := 0,
                   video_guard_band := true, video_data_period := true,
                   guard_band_dots := 1, v_active_lines := uincr s.v_active_lines }
        (if s.preamble_dots ≠ 8
          then [Message.preamble_incorrect_length s.preamble_dots] else []) := by
    rw [validate_guard_band_aux s guard_band.1 guard_band.2.1 guard_band.2.2 (by decide)]
    simp [guard_band_branch, hg, hz, hc, uincr, UINT_SIZE]
  have e2 : validate_characters
      { s with video_preamble := false, control_period_dots := 0, preamble_dots := 0,
               video_guard_band := true, video_data_period := true,
               guard_band_dots := 1, v_active_lines := uincr s.v_active_lines }
      guard_band.1 guard_band.2.1 guard_band.2.2 =
      .ok { s with video_preamble := false, control_period_dots := 0, preamble_dots := 0,
                   video_guard_band := true, video_data_period := true,
                   guard_band_dots := 2, v_active_lines := uincr s.v_active_lines } [] := by
    rw [validate_guard_band_aux _ guard_band.1 guard_band.2.1 guard_band.2.2 (by decide)]
    simp [guard_band_branch, uincr, UINT_SIZE]
  refine ⟨_, _, e1, rfl, rfl, rfl, rfl, rfl, rfl, rfl, e2, rfl, rfl, rfl, rfl, rfl, rfl, rfl,
    rfl, ?_⟩
  rw [feed_cons_ok_aux s _ guard_band [guard_band] _ e1,
    feed_cons_ok_aux _ _ guard_band [] _ e2]
  simp [feed]

theorem lead_preamble_aux (lead pre : List Triple)
    (hlead : ∀ t ∈ lead, is_control_triple t = true ∧ is_preamble_triple t = false)
    (hpre : ∀ t ∈ pre, is_preamble_triple t = true) :
    ∃ s1 out1, feed fresh (lead ++ pre) = .ok s1 out1 ∧
      s1.preamble_dots = pre.length % UINT_SIZE ∧
      s1.control_period_dots = (lead.length + pre.length) % UINT_SIZE ∧
      s1.video_guard_band = false ∧ s1.guard_band_dots = 0 ∧ s1.buffer = [] ∧
      s1.h_active_dots = 0 ∧ s1.v_active_lines = 0 ∧
      out1.countP Message.is_preamble_incorrect_length = 0 ∧
      (3 ≤ lead.length → lead.length + 1 < UINT_SIZE → pre.length ≤ 8 → out1 = []) := by
  obtain ⟨sa, ha, a1, a2, a3, a4, a5, a6, a7, a8⟩ :=
    control_run_aux lead fresh hlead (by decide)
  have a1b : sa.control_period_dots = lead.length % UINT_SIZE := by
    rw [a1]
    simp [fresh]
  obtain ⟨sb, out, hb, b1, b2, b3, b4, b5, b6, b7, b8, b9⟩ :=
    preamble_start_aux pre sa hpre a2 a3 (a1b ▸ Nat.mod_lt _ (by decide))
  refine ⟨sb, out, ?_, b1, ?_, b3.trans a4, b4.trans a5, b5.trans a6, b6 (a7 rfl),
    b7 (a8 rfl), b8, ?_⟩
  · have := feed_append_returns_aux lead pre fresh sa sb [] out ha hb
    simpa using this
  · rw [b2, a1b]
    simp only [UINT_SIZE]
    omega
  · intro h3 hlt hle
    have hm : lead.length % UINT_SIZE = lead.length := Nat.mod_eq_of_lt (by omega)
    apply b9 _ _ hle
    · rw [a1b, hm]; exact h3
    · rw [a1b, hm]; exact hlt

/-- C7, as amended: a fresh validator fed 4 control dots (not preamble), 8
preamble dots, 2 guard band dots, any `N` data dots and then any control dots
(not preamble; in particular ones with a sync rising edge), with no guard band
after the data, returns from every call, writes no violation and ends with a
buffer of exactly the `N` decoded pixels. -/
theorem well_formed_line_no_trailing_guard_band (lead pre data tail : List Triple)
    (hlead4 : lead.length = 4)
    (hlead : ∀ t ∈ lead, is_control_triple t = true ∧ is_preamble_triple t = false)
    (hpre8 : pre.length = 8) (hpre : ∀ t ∈ pre, is_preamble_triple t = true)
    (hdata : ∀ t ∈ data, is_data_triple t = true)
    (htail : ∀ t ∈ tail, is_control_triple t = true ∧ is_preamble_triple t = false) :
    ∃ s1, feed fresh (lead ++ pre ++ [guard_band, guard_band] ++ data ++ tail) = .ok s1 [] ∧
      s1.buffer.length = data.length ∧ s1.buffer = data.map pixel_of := by
  obtain ⟨sa, outa, ha, a1, a2, a3, a4, a5, a6, _, _, a9⟩ := lead_preamble_aux lead pre hlead hpre
  have houta : outa = [] := a9 (by omega) (by rw [hlead4]; decide) (by omega)
  subst houta
  rw [hpre8] at a1
  rw [hlead4, hpre8] at a2
  have a1b : sa.preamble_dots = 8 := a1
  have a2b : sa.control_period_dots = 12 := a2
  obtain ⟨_, sb, _, _, _, _, _, _, _, _, _, b1, b2, b3, b4, b5, b6, b7, b8, hb⟩ :=
    guard_band_pair_aux sa a3 a4 (by omega)
  rw [if_neg (by simp [a1b])] at hb
  obtain ⟨sc, hc, c1, c2, _, _⟩ :=
    data_run_aux data sb hdata b5 (fun _ => ⟨b7.trans a6, b6⟩)
  obtain ⟨sd, hd, _, _, _, _, _, d6, _, _⟩ :=
    control_run_aux tail sc htail (by rw [c2, b3]; decide)
  have h1 := feed_append_returns_aux _ _ fresh sa sb [] [] ha hb
  have h2 := feed_append_returns_aux _ _ fresh sb sc _ [] h1 hc
  have h3 := feed_append_returns_aux _ _ fresh sc sd _ [] h2 hd
  have hbuf : sd.buffer = data.map pixel_of := by
    rw [d6, c1, b8, a5]
    rfl
  refine ⟨sd, ?_, ?_, hbuf⟩
  · simpa using h3
  · rw [hbuf, List.length_map]

/-- Witness of C7 as amended: two data dots, and a vertical and horizontal sync
rising edge in the closing control dots. -/
theorem well_formed_line_no_trailing_guard_band_witness :
    ∃ s1, feed fresh
        (List.replicate 4 (CTL_00, CTL_00, CTL_00) ++ List.replicate 8 (CTL_00, CTL_01, CTL_00)
          ++ [guard_band, guard_band] ++ [(0, 1, 2), (3, 4, 5)]
          ++ [(CTL_00, CTL_00, CTL_00), (CTL_11, CTL_00, CTL_00)]) = .ok s1 [] ∧
      s1.buffer.length = [((0 : Nat), (1 : Nat), (2 : Nat)), (3, 4, 5)].length ∧
      s1.buffer = [((0 : Nat), (1 : Nat), (2 : Nat)), (3, 4, 5)].map pixel_of :=
  well_formed_line_no_trailing_guard_band _ _ _ _ (by decide) (by decide) (by decide)
    (by decide) (by decide) (by decide)

/-- C7 as stated fails: with one data dot, the first guard band dot after the
data fails the assertion `control_period_dots > preamble_dots`; with no data
dot, the two further guard band dots are reported as a guard band that is too
long. -/
theorem trailing_guard_band_fails :
    (feed fresh
        (List.replicate 4 (CTL_00, CTL_00, CTL_00) ++ List.replicate 8 (CTL_00, CTL_01, CTL_00)
          ++ [guard_band, guard_band] ++ [(0, 1, 2)] ++ [guard_band, guard_band]
          ++ [(CTL_00, CTL_00, CTL_00), (CTL_11, CTL_00, CTL_00)])).returned = false ∧
    (feed fresh
        (List.replicate 4 (CTL_00, CTL_00, CTL_00) ++ List.replicate 8 (CTL_00, CTL_01, CTL_00)
          ++ [guard_band, guard_band] ++ [] ++ [guard_band, guard_band]
          ++ [(CTL_00, CTL_00, CTL_00), (CTL_11, CTL_00, CTL_00)])).out =
      [Message.guard_band_too_long 3, Message.guard_band_too_long 4] := by
  constructor <;> decide

/-- C8, as amended: a fresh validator fed at least 4 control dots (not
preamble), then `k` preamble dots, then 2 guard band dots, the control and
preamble dots together fewer than `2 ^ 32`, writes no "Preamble incorrect
length" line before the first guard band dot; that dot writes exactly one such
line, naming `k`, when `k ≠ 8` and nothing when `k = 8`, and leaves
`video_preamble` false, `preamble_dots = 0`, `control_period_dots = 0`,
`video_guard_band` and `video_data_period` true, `guard_band_dots = 1` and
`v_active_lines` one more than before; the second guard band dot writes
nothing. -/
theorem preamble_length_checked_at_guard_band (lead pre : List Triple)
    (hlead4 : 4 ≤ lead.length)
    (hlead : ∀ t ∈ lead, is_control_triple t = true ∧ is_preamble_triple t = false)
    (hpre : ∀ t ∈ pre, is_preamble_triple t = true)
    (hbound : lead.length + pre.length < UINT_SIZE) :
    ∃ s1 out1 s2 s3, feed fresh (lead ++ pre) = .ok s1 out1 ∧
      out1.countP Message.is_preamble_incorrect_length = 0 ∧
      validate_characters s1 guard_band.1 guard_band.2.1 guard_band.2.2 =
        .ok s2 (if pre.length ≠ 8
          then [Message.preamble_incorrect_length pre.length] else []) ∧
      s2.video_preamble = false ∧ s2.preamble_dots = 0 ∧ s2.control_period_dots = 0 ∧
      s2.video_guard_band = true ∧ s2.video_data_period = true ∧ s2.guard_band_dots = 1 ∧
      s2.v_active_lines = s1.v_active_lines + 1 ∧
      validate_characters s2 guard_band.1 guard_band.2.1 guard_band.2.2 = .ok s3 [] ∧
      feed fresh (lead ++ pre ++ [guard_band, guard_band]) =
        .ok s3 (out1 ++ (if pre.length ≠ 8
          then [Message.preamble_incorrect_length pre.length] else [])) ∧
      (feed fresh (lead ++ pre ++ [guard_band, guard_band])).out.filter
          Message.is_preamble_incorrect_length =
        (if pre.length ≠ 8 then [Message.preamble_incorrect_length pre.length] else []) := by
  obtain ⟨sa, outa, ha, a1, a2, a3, a4, _, _, a7, a8, _⟩ := lead_preamble_aux lead pre hlead hpre
  have a1b : sa.preamble_dots = pre.length := by
    rw [a1]
    exact Nat.mod_eq_of_lt (by omega)
  have a2b : sa.control_period_dots = lead.length + pre.length := by
    rw [a2]
    exact Nat.mod_eq_of_lt hbound
  obtain ⟨s2, s3, e1, b1, b2, b3, b4, b5, b6, b7, e2, _, _, _, _, _, _, _, _, hb⟩ :=
    guard_band_pair_aux sa a3 a4 (by omega)
  rw [a1b] at e1 hb
  have hfeed := feed_append_returns_aux _ _ fresh sa s3 outa _ ha hb
  refine ⟨sa, outa, s2, s3, ha, a8, e1, b1, b2, b3, b4, b5, b6, ?_, e2, hfeed, ?_⟩
  · rw [b7, a7]
    rfl
  · rw [hfeed]
    simp only [Outcome.out, List.filter_append]
    have hnone : outa.filter Message.is_preamble_incorrect_length = [] := by
      rw [List.filter_eq_nil_iff]
      intro m hm hp
      have := List.countP_eq_zero.mp a8 m hm
      exact this hp
    rw [hnone, List.nil_append]
    split_ifs <;> rfl

/-- Witness of C8 as amended: 4 control dots and 6 preamble dots. -/
theorem preamble_length_checked_at_guard_band_witness :
    ∃ s3, feed fresh
        (List.replicate 4 (CTL_00, CTL_00, CTL_00) ++ List.replicate 6 (CTL_00, CTL_01, CTL_00)
          ++ [guard_band, guard_band]) = .ok s3 [Message.preamble_incorrect_length 6] := by
  obtain ⟨s1, out1, s2, s3, h1, h2, _, _, _, _, _, _, _, _, _, h3, _⟩ :=
    preamble_length_checked_at_guard_band
      (List.replicate 4 (CTL_00, CTL_00, CTL_00)) (List.replicate 6 (CTL_00, CTL_01, CTL_00))
      (by decide) (by decide) (by decide) (by decide)
  have h1b : feed fresh (List.replicate 4 (CTL_00, CTL_00, CTL_00)
      ++ List.replicate 6 (CTL_00, CTL_01, CTL_00)) = .ok s1 out1 := h1
  have hout : out1 = [] := by
    have hd : (feed fresh (List.replicate 4 (CTL_00, CTL_00, CTL_00)
      ++ List.replicate 6 (CTL_00, CTL_01, CTL_00))).out = [] := by decide
    rw [h1b] at hd
    exact hd
  subst hout
  exact ⟨s3, h3⟩

theorem preamble_wrap_aux (n : Nat) (h8 : n % UINT_SIZE = 8)
    (h12 : (4 + n) % UINT_SIZE = 12) :
    (feed fresh
        (List.replicate 4 (CTL_00, CTL_00, CTL_00) ++ List.replicate n (CTL_00, CTL_01, CTL_00)
          ++ [guard_band, guard_band])).returned = true ∧
    (feed fresh
        (List.replicate 4 (CTL_00, CTL_00, CTL_00) ++ List.replicate n (CTL_00, CTL_01, CTL_00)
          ++ [guard_band, guard_band])).out.countP Message.is_preamble_incorrect_length = 0 := by
  have hlead : ∀ t ∈ List.replicate 4 (CTL_00, CTL_00, CTL_00),
      is_control_triple t = true ∧ is_preamble_triple t = false := by
    intro t ht
    rw [List.eq_of_mem_replicate ht]
    decide
  have hpre : ∀ t ∈ List.replicate n (CTL_00, CTL_01, CTL_00),
      is_preamble_triple t = true := by
    intro t ht
    rw [List.eq_of_mem_replicate ht]
    decide
  obtain ⟨sa, outa, ha, a1, a2, a3, a4, _, _, _, a8, _⟩ := lead_preamble_aux _ _ hlead hpre
  rw [List.length_replicate, h8] at a1
  rw [List.length_replicate, List.length_replicate, h12] at a2
  obtain ⟨_, s3, _, _, _, _, _, _, _, _, _, _, _, _, _, _, _, _, _, hb⟩ :=
    guard_band_pair_aux sa a3 a4 (by omega)
  rw [if_neg (by simp [a1])] at hb
  have hfeed := feed_append_returns_aux _ _ fresh sa s3 outa [] ha hb
  rw [hfeed]
  exact ⟨rfl, by simpa [Outcome.out] using a8⟩

/-- C8 as stated fails when the preamble counter wraps: after 4 control dots
and `2 ^ 32 + 8` preamble dots the 32-bit `preamble_dots` is 8 again, and the
guard band that follows writes no "Preamble incorrect length" line. -/
theorem preamble_length_wraps :
    (feed fresh
        (List.replicate 4 (CTL_00, CTL_00, CTL_00)
          ++ List.replicate 4294967304 (CTL_00, CTL_01, CTL_00)
          ++ [guard_band, guard_band])).returned = true ∧
    (feed fresh
        (List.replicate 4 (CTL_00, CTL_00, CTL_00)
          ++ List.replicate 4294967304 (CTL_00, CTL_01, CTL_00)
          ++ [guard_band, guard_band])).out.countP Message.is_preamble_incorrect_length = 0 :=
  preamble_wrap_aux 4294967304 (by decide) (by decide)

/-! ## Streams of control triples: sync edges and the frame counter -/

theorem control_branch_returns_aux (s : VideoSourceValidation) (c0 c1 c2 : Nat)
    (hinv : s.video_preamble = false → s.preamble_dots = 0) :
    ∃ m out, control_branch s c0 c1 c2 = .ok (sync_update m c0) out ∧
      m.previous_h_sync = s.previous_h_sync ∧ m.previous_v_sync = s.previous_v_sync ∧
      m.frames = s.frames ∧ (m.video_preamble = false → m.preamble_dots = 0) := by
  unfold control_branch preamble_update
  simp only
  by_cases hp : is_video_preamble c0 c1 c2 = true
  · rw [if_pos hp]
    cases hv : s.video_preamble with
    | false =>
      simp only [Bool.not_false, if_true, hinv hv]
      exact ⟨_, _, rfl, rfl, rfl, rfl, by intro h; cases h⟩
    | true =>
      simp only [Bool.not_true, Bool.false_eq_true, if_false]
      exact ⟨_, _, rfl, rfl, rfl, rfl, by intro h; cases h⟩
  · rw [if_neg hp]
    exact ⟨_, _, rfl, rfl, rfl, rfl, hinv⟩

theorem control_triple_step_aux (s : VideoSourceValidation) (t : Triple)
    (ht : is_control_triple t = true)
    (hinv : s.video_preamble = false → s.preamble_dots = 0) :
    ∃ s1 out, validate_characters s t.1 t.2.1 t.2.2 = .ok s1 out ∧
      s1.previous_h_sync = h_sync_bit t ∧
      s1.previous_v_sync =
        (if (!s.previous_h_sync && h_sync_bit t) = true then v_sync_bit t
          else s.previous_v_sync) ∧
      s1.frames =
        (if (!s.previous_h_sync && h_sync_bit t && (!s.previous_v_sync && v_sync_bit t)) = true
          then uincr s.frames else s.frames) ∧
      ((!s.previous_h_sync && h_sync_bit t && (!s.previous_v_sync && v_sync_bit t)) = true →
        s1.v_active_lines = 0) ∧
      (s1.video_preamble = false → s1.preamble_dots = 0) := by
  unfold is_control_triple at ht
  cases e0 : try_decode_as_control t.1 with
  | none => simp [e0] at ht
  | some c0 =>
    cases e1 : try_decode_as_control t.2.1 with
    | none => simp [e1] at ht
    | some c1 =>
      cases e2 : try_decode_as_control t.2.2 with
      | none => simp [e2] at ht
      | some c2 =>
        obtain ⟨m, out, hb, m1, m2, m3, m4⟩ := control_branch_returns_aux s c0 c1 c2 hinv
        obtain ⟨y1, y2⟩ := sync_update_sync_aux m c0
        obtain ⟨f1, f2⟩ := sync_update_frames_aux m c0
        obtain ⟨_, _, p3, _, _, p6, _, _⟩ := sync_update_phase_aux m c0
        have hh : h_sync_bit t = ((c0 &&& 0x1) != 0) := by simp only [h_sync_bit, e0]
        have hv : v_sync_bit t = ((c0 &&& 0x2) != 0) := by simp only [v_sync_bit, e0]
        rw [m1, m2] at y2
        rw [m1, m2, m3] at f1
        rw [m1, m2] at f2
        refine ⟨sync_update m c0, out, ?_, ?_, ?_, ?_, ?_, ?_⟩
        · rw [validate_control_aux s _ _ _ c0 c1 c2 e0 e1 e2, hb]
        · rw [y1, hh]
        · rw [y2, hh, hv]
        · rw [f1, hh, hv]
        · rw [hh, hv]
          exact f2
        · rw [p3, p6]
          exact m4

theorem sync_history_snoc_aux (start : Bool × Bool) (l : List Triple) (t : Triple) :
    sync_history_from start (l ++ [t]) =
      (h_sync_bit t,
        if !(sync_history_from start l).1 && h_sync_bit t then v_sync_bit t
        else (sync_history_from start l).2) := by
  simp [sync_history_from, List.foldl_append]

theorem control_stream_aux (l : List Triple) :
    ∀ s : VideoSourceValidation, (∀ u ∈ l, is_control_triple u = true) →
      (s.video_preamble = false → s.preamble_dots = 0) →
      ∃ s0 out0, feed s l = .ok s0 out0 ∧
        s0.previous_h_sync = (sync_history_from (s.previous_h_sync, s.previous_v_sync) l).1 ∧
        s0.previous_v_sync = (sync_history_from (s.previous_h_sync, s.previous_v_sync) l).2 ∧
        (s0.video_preamble = false → s0.preamble_dots = 0) := by
  induction l with
  | nil =>
    intro s _ hinv
    exact ⟨s, [], rfl, rfl, rfl, hinv⟩
  | cons t rest ih =>
    intro s hl hinv
    obtain ⟨m, out, hstep, p1, p2, _, _, p5⟩ :=
      control_triple_step_aux s t (hl t (List.mem_cons_self t rest)) hinv
    obtain ⟨s0, out0, hf, q1, q2, q3⟩ :=
      ih m (fun u hu => hl u (List.mem_cons_of_mem t hu)) p5
    refine ⟨s0, out ++ out0, ?_, ?_, ?_, q3⟩
    · rw [feed_cons_ok_aux s m t rest out hstep, hf]
    · rw [q1, p1, p2]
      simp [sync_history_from]
    · rw [q2, p1, p2]
      simp [sync_history_from]

/-- C9, as amended: in a stream of control triples fed to a fresh validator,
every call returns; before each triple `previous_h_sync` is the horizontal
sync bit of the preceding triple and `previous_v_sync` is the vertical sync
bit sampled at the most recent horizontal sync rising edge (both false at the
start); the frame counter is incremented by one (as a `uint`) exactly at the
triples whose horizontal sync bit rises against the preceding triple and
whose vertical sync bit is set while the sampled vertical sync bit is clear,
`v_active_lines` is 0 after each such triple, and every other triple leaves
the frame counter as it was. -/
theorem frame_counter_at_sampled_edges (l : List Triple) (t : Triple)
    (hl : ∀ u ∈ l, is_control_triple u = true) (ht : is_control_triple t = true) :
    ∃ s0 out0 s1 out1, feed fresh l = .ok s0 out0 ∧
      validate_characters s0 t.1 t.2.1 t.2.2 = .ok s1 out1 ∧
      feed fresh (l ++ [t]) = .ok s1 (out0 ++ out1) ∧
      s0.previous_h_sync = (sync_history l).1 ∧ s0.previous_v_sync = (sync_history l).2 ∧
      s1.frames =
        (if (!(sync_history l).1 && h_sync_bit t &&
              (!(sync_history l).2 && v_sync_bit t)) = true
          then uincr s0.frames else s0.frames) ∧
      ((!(sync_history l).1 && h_sync_bit t && (!(sync_history l).2 && v_sync_bit t)) = true →
        s1.v_active_lines = 0) := by
  obtain ⟨s0, out0, hf, q1, q2, q3⟩ := control_stream_aux l fresh hl (fun _ => rfl)
  obtain ⟨s1, out1, hstep, _, _, p3, p4, _⟩ := control_triple_step_aux s0 t ht q3
  have hq1 : s0.previous_h_sync = (sync_history l).1 := q1
  have hq2 : s0.previous_v_sync = (sync_history l).2 := q2
  rw [hq1, hq2] at p3 p4
  refine ⟨s0, out0, s1, out1, hf, hstep, ?_, hq1, hq2, p3, p4⟩
  apply feed_append_returns_aux l [t] fresh s0 s1 out0 out1 hf
  rw [feed_cons_ok_aux s0 s1 t [] out1 hstep]
  simp [feed]

/-- Witness of C9 as amended: after the control values 11, 00, 01, 00 on
channel 0 the triple 11 is counted as a frame. -/
theorem frame_counter_at_sampled_edges_witness :
    ∃ s0 out0 s1 out1,
      feed fresh [(CTL_11, CTL_00, CTL_00), (CTL_00, CTL_00, CTL_00), (CTL_01, CTL_00, CTL_00),
        (CTL_00, CTL_00, CTL_00)] = .ok s0 out0 ∧
      validate_characters s0 CTL_11 CTL_00 CTL_00 = .ok s1 out1 ∧
      feed fresh ([(CTL_11, CTL_00, CTL_00), (CTL_00, CTL_00, CTL_00), (CTL_01, CTL_00, CTL_00),
        (CTL_00, CTL_00, CTL_00)] ++ [(CTL_11, CTL_00, CTL_00)]) = .ok s1 (out0 ++ out1) ∧
      s0.frames = 1 ∧ s1.frames = 2 ∧ s1.v_active_lines = 0 := by
  obtain ⟨s0, out0, s1, out1, h1, h2, h3, _, _, h6, h7⟩ :=
    frame_counter_at_sampled_edges
      [(CTL_11, CTL_00, CTL_00), (CTL_00, CTL_00, CTL_00), (CTL_01, CTL_00, CTL_00),
        (CTL_00, CTL_00, CTL_00)] (CTL_11, CTL_00, CTL_00) (by decide) (by decide)
  have hs0 : (feed fresh [(CTL_11, CTL_00, CTL_00), (CTL_00, CTL_00, CTL_00),
      (CTL_01, CTL_00, CTL_00), (CTL_00, CTL_00, CTL_00)]).state.frames = 1 := by decide
  rw [h1] at hs0
  have hs0b : s0.frames = 1 := hs0
  have hedge : (!(sync_history [(CTL_11, CTL_00, CTL_00), (CTL_00, CTL_00, CTL_00),
      (CTL_01, CTL_00, CTL_00), (CTL_00, CTL_00, CTL_00)]).1 &&
      h_sync_bit (CTL_11, CTL_00, CTL_00) &&
      (!(sync_history [(CTL_11, CTL_00, CTL_00), (CTL_00, CTL_00, CTL_00),
      (CTL_01, CTL_00, CTL_00), (CTL_00, CTL_00, CTL_00)]).2 &&
      v_sync_bit (CTL_11, CTL_00, CTL_00))) = true := by decide
  rw [if_pos hedge, hs0b] at h6
  exact ⟨s0, out0, s1, out1, h1, h2, h3, hs0b, h6, h7 hedge⟩

/-- C9 as stated fails: on the channel 0 control values 11, 00, 11 both sync
bits rise twice against the preceding triple, yet the frame counter ends at 1,
because `previous_v_sync` is only stored on a horizontal sync rising edge and
is still set at the second edge; and on 01, 10, 11 the frame counter is
incremented at the third triple although its vertical sync bit was already
set in the preceding triple. -/
theorem consecutive_v_sync_edges_counted_once :
    feed fresh [(CTL_11, CTL_00, CTL_00), (CTL_00, CTL_00, CTL_00), (CTL_11, CTL_00, CTL_00)] =
      .ok { fresh with previous_h_sync := true, previous_v_sync := true, control_period := true,
                       frames := 1, control_period_dots := 3 } [] ∧
    (feed fresh [(CTL_01, CTL_00, CTL_00), (CTL_10, CTL_00, CTL_00)]).state.frames = 0 ∧
    (feed fresh [(CTL_01, CTL_00, CTL_00), (CTL_10, CTL_00, CTL_00),
      (CTL_11, CTL_00, CTL_00)]).state.frames = 1 := by
  refine ⟨by decide, by decide, by decide⟩

/-! ## Preamble spacing and the stored sync bits -/

theorem spacing_wrap_aux (m : Nat) (hm : (m + 1) % UINT_SIZE = 0) :
    ∃ s1, feed fresh (List.replicate m (CTL_00, CTL_00, CTL_00) ++ [(CTL_00, CTL_01, CTL_00)]) =
      .ok s1 [Message.preamble_spacing 0] := by
  have hlead : ∀ t ∈ List.replicate m (CTL_00, CTL_00, CTL_00),
      is_control_triple t = true ∧ is_preamble_triple t = false := by
    intro t ht
    rw [List.eq_of_mem_replicate ht]
    decide
  obtain ⟨sa, ha, a1, a2, a3, _⟩ := control_run_aux _ fresh hlead (by decide)
  rw [List.length_replicate] at a1
  obtain ⟨sb, hb, _⟩ :=
    first_preamble_step_facts_aux sa (CTL_00, CTL_01, CTL_00) (by decide) a2 a3
  have hu : uincr sa.control_period_dots = 0 := by
    rw [a1]
    simp only [uincr, UINT_SIZE, fresh] at hm ⊢
    omega
  rw [hu, if_pos (by decide)] at hb
  have hb2 : feed sa [(CTL_00, CTL_01, CTL_00)] = .ok sb [Message.preamble_spacing 0] := by
    rw [feed_cons_ok_aux sa sb _ [] _ hb]
    rfl
  exact ⟨sb, by simpa using feed_append_returns_aux _ _ fresh sa sb [] _ ha hb2⟩

theorem spacing_wrap_out_aux (m : Nat) (hm : (m + 1) % UINT_SIZE = 0) :
    (feed fresh (List.replicate m (CTL_00, CTL_00, CTL_00) ++ [(CTL_00, CTL_01, CTL_00)])).out =
      [Message.preamble_spacing 0] := by
  obtain ⟨s1, h⟩ := spacing_wrap_aux m hm
  rw [h]
  rfl

/-- C11, as amended: at the start of a control period (`control_period_dots`
0, no preamble active), after `p` control dots that are not preamble, with
`p + 1 < 2 ^ 32`, the first preamble triple is counted before the comparison
with 4, so a "Preamble spacing violation" line, naming `p + 1`, is written if
and only if `p < 3`: fewer than 3 control dots preceded the preamble. -/
theorem preamble_spacing_threshold (s : VideoSourceValidation) (lead : List Triple)
    (t : Triple) (hstart : s.control_period_dots = 0) (hv : s.video_preamble = false)
    (hz : s.preamble_dots = 0)
    (hlead : ∀ u ∈ lead, is_control_triple u = true ∧ is_preamble_triple u = false)
    (ht : is_preamble_triple t = true) (hbound : lead.length + 1 < UINT_SIZE) :
    ∃ s1 s2, feed s lead = .ok s1 [] ∧ s1.control_period_dots = lead.length ∧
      validate_characters s1 t.1 t.2.1 t.2.2 =
        .ok s2 (if lead.length < 3
          then [Message.preamble_spacing (lead.length + 1)] else []) ∧
      s2.video_preamble = true ∧ s2.preamble_dots = 1 := by
  obtain ⟨s1, hf, a1, a2, a3, _, _, _, _, _⟩ :=
    control_run_aux lead s hlead (by rw [hstart]; decide)
  have hc : s1.control_period_dots = lead.length := by
    rw [a1, hstart, Nat.zero_add]
    exact Nat.mod_eq_of_lt (by omega)
  obtain ⟨s2, hstep, _, b2, b3, _, _, _, _, _⟩ :=
    first_preamble_step_facts_aux s1 t ht (a2.trans hv) (a3.trans hz)
  have hu : uincr s1.control_period_dots = lead.length + 1 := by
    rw [hc]
    exact Nat.mod_eq_of_lt hbound
  rw [hu] at hstep
  refine ⟨s1, s2, hf, hc, ?_, b2, b3⟩
  rw [hstep]
  by_cases h3 : lead.length < 3
  · rw [if_pos h3, if_pos (by omega)]
  · rw [if_neg h3, if_neg (by omega)]

/-- Witness of C11 as amended: a preamble after 2 control dots is reported. -/
theorem preamble_spacing_threshold_witness :
    ∃ s1 s2, feed fresh [(CTL_00, CTL_00, CTL_00), (CTL_00, CTL_00, CTL_00)] = .ok s1 [] ∧
      s1.control_period_dots = [(CTL_00, CTL_00, CTL_00), (CTL_00, CTL_00, CTL_00)].length ∧
      validate_characters s1 CTL_00 CTL_01 CTL_00 =
        .ok s2 (if [(CTL_00, CTL_00, CTL_00), (CTL_00, CTL_00, CTL_00)].length < 3
          then [Message.preamble_spacing
            ([(CTL_00, CTL_00, CTL_00), (CTL_00, CTL_00, CTL_00)].length + 1)] else []) ∧
      s2.video_preamble = true ∧ s2.preamble_dots = 1 :=
  preamble_spacing_threshold fresh [(CTL_00, CTL_00, CTL_00), (CTL_00, CTL_00, CTL_00)]
    (CTL_00, CTL_01, CTL_00) rfl rfl rfl (by decide) (by decide) (by decide)

/-- C11 as stated fails: a preamble that starts after exactly 3 control dots
is not reported (the counter is 4 when it is compared), while one that starts
after exactly 2 is; and one that starts after `2 ^ 32 - 1` control dots is
reported, naming 0 dots, because the 32-bit counter has wrapped. -/
theorem preamble_after_three_dots_not_reported :
    feed fresh (List.replicate 3 (CTL_00, CTL_00, CTL_00) ++ [(CTL_00, CTL_01, CTL_00)]) =
      .ok { fresh with control_period := true, video_preamble := true,
                       control_period_dots := 4, preamble_dots := 1 } [] ∧
    (feed fresh (List.replicate 2 (CTL_00, CTL_00, CTL_00) ++ [(CTL_00, CTL_01, CTL_00)])).out =
      [Message.preamble_spacing 3] ∧
    (feed fresh (List.replicate 4294967295 (CTL_00, CTL_00, CTL_00)
        ++ [(CTL_00, CTL_01, CTL_00)])).out = [Message.preamble_spacing 0] :=
  ⟨by decide, by decide, spacing_wrap_out_aux 4294967295 (by decide)⟩

/-- C12, as amended: after every call of `validate_characters` on a control
triple that returns, `previous_h_sync` is bit 0 of channel 0's control value;
`previous_v_sync` is bit 1 of it if the call saw a horizontal sync rising edge
(`previous_h_sync` was false and bit 0 is set) and keeps its old value
otherwise. -/
theorem previous_sync_stored (s s1 : VideoSourceValidation) (ch0 ch1 ch2 c0 : Nat)
    (out : List Message) (h0 : try_decode_as_control ch0 = some c0)
    (h : validate_characters s ch0 ch1 ch2 = .ok s1 out) :
    s1.previous_h_sync = ((c0 &&& 0x1) != 0) ∧
    s1.previous_v_sync =
      (if (!s.previous_h_sync && ((c0 &&& 0x1) != 0)) = true
        then ((c0 &&& 0x2) != 0) else s.previous_v_sync) := by
  have h3 : ∃ c1 c2, try_decode_as_control ch1 = some c1 ∧
      try_decode_as_control ch2 = some c2 := by
    cases e1 : try_decode_as_control ch1 with
    | none => simp [validate_characters, aligned, h0, e1] at h
    | some c1 =>
      cases e2 : try_decode_as_control ch2 with
      | none => simp [validate_characters, aligned, h0, e1, e2] at h
      | some c2 => exact ⟨c1, c2, rfl, rfl⟩
  obtain ⟨c1, c2, e1, e2⟩ := h3
  rw [validate_control_aux s ch0 ch1 ch2 c0 c1 c2 h0 e1 e2] at h
  obtain ⟨m, rfl, k1, k2, _, _, _, _⟩ := control_branch_ok_aux s _ c0 c1 c2 out h
  obtain ⟨y1, y2⟩ := sync_update_sync_aux m c0
  rw [k1, k2] at y2
  exact ⟨y1, y2⟩

/-- Witness of C12 as amended: the control value 0b11 on channel 0 of a fresh
validator is a rising edge and both bits are stored. -/
theorem previous_sync_stored_witness :
    ∃ s1 : VideoSourceValidation,
      validate_characters fresh CTL_11 CTL_00 CTL_00 = .ok s1 [] ∧
      s1.previous_h_sync = true ∧ s1.previous_v_sync = true := by
  have h : validate_characters fresh CTL_11 CTL_00 CTL_00 =
      .ok (validate_characters fresh CTL_11 CTL_00 CTL_00).state [] := by decide
  obtain ⟨a, b⟩ := previous_sync_stored fresh _ CTL_11 CTL_00 CTL_00 3 [] (by decide) h
  exact ⟨_, h, a, b⟩

/-- C12 as stated fails: the control value 0b10 on channel 0 of a fresh
validator has bit 1 set and no horizontal sync rising edge, and
`previous_v_sync` is false after the call. -/
theorem previous_v_sync_not_stored_without_edge :
    try_decode_as_control CTL_10 = some 0b10 ∧
    validate_characters fresh CTL_10 CTL_00 CTL_00 =
      .ok { fresh with control_period := true, control_period_dots := 1 } [] ∧
    (validate_characters fresh CTL_10 CTL_00 CTL_00).state.previous_v_sync = false := by
  refine ⟨by decide, by decide, by decide⟩

/-! ## Saving a frame -/

theorem pixel_bytes_length_aux (l : List Pixel) :
    (l.flatMap (fun p => [p.r, p.g, p.b])).length = 3 * l.length := by
  induction l with
  | nil => rfl
  | cons p rest ih =>
    rw [List.flatMap_cons, List.length_append, ih, List.length_cons]
    simp only [List.length_cons, List.length_nil]
    omega

/-- C13: with an empty buffer, `save_frame_buffer` returns before the size
check for every width and height: it writes the line "No pixel data for frame
N", raises no assertion failure, writes no file and leaves the object, buffer
and counters included, as it was. -/
theorem save_frame_buffer_empty (s : VideoSourceValidation) (file_path : String)
    (h_active v_active : Nat) (hempty : s.buffer.length = 0) :
    save_frame_buffer s file_path h_active v_active =
      (.ok s [Message.no_pixel_data s.frames], none) ∧
    (save_frame_buffer s file_path h_active v_active).1.returned = true ∧
    (save_frame_buffer s file_path h_active v_active).1.state = s ∧
    (save_frame_buffer s file_path h_active v_active).2 = none := by
  have h : save_frame_buffer s file_path h_active v_active =
      (.ok s [Message.no_pixel_data s.frames], none) := by
    unfold save_frame_buffer
    rw [if_pos hempty]
  rw [h]
  exact ⟨rfl, rfl, rfl, rfl⟩

/-- Witness of C13: a fresh validator asked for a 640 by 480 frame. -/
theorem save_frame_buffer_empty_witness :
    (save_frame_buffer fresh "frame1.ppm" 640 480).1 = .ok fresh [Message.no_pixel_data 0] ∧
    (save_frame_buffer fresh "frame1.ppm" 640 480).2 = none :=
  ⟨congrArg Prod.fst (save_frame_buffer_empty fresh "frame1.ppm" 640 480 rfl).1,
   (save_frame_buffer_empty fresh "frame1.ppm" 640 480 rfl).2.2.2⟩

/-- C14, as amended: with a non-empty buffer and a width and height whose
product is below `2 ^ 32`, `save_frame_buffer` returns iff the buffer length
is `width * height` and otherwise fails its assertion without writing a file;
when it returns, the file holds the width, the height, 255 and the pixels of
the buffer in insertion order as r, g, b bytes, `3 * width * height` bytes.
`save_frame_buffer` leaves the buffer as it was; the buffer is emptied by the
caller `Source::save_frame_buffer` after a call that returned. -/
theorem save_frame_buffer_checks_size (s : VideoSourceValidation) (file_path : String)
    (w h : Nat) (hne : s.buffer ≠ []) (hprod : w * h < UINT_SIZE) :
    ((save_frame_buffer s file_path w h).1.returned = true ↔ s.buffer.length = w * h) ∧
    (s.buffer.length = w * h →
      ∃ f, save_frame_buffer s file_path w h =
          (.ok s [Message.frame_saved s.frames w h], some f) ∧
        f.width = w ∧ f.height = h ∧ f.maxval = 255 ∧
        f.data = s.buffer.flatMap (fun p => [p.r, p.g, p.b]) ∧
        f.data.length = 3 * w * h) ∧
    (s.buffer.length ≠ w * h → save_frame_buffer s file_path w h = (.abort s [], none)) ∧
    (save_frame_buffer s file_path w h).1.state.buffer = s.buffer ∧
    ((Source.save_frame_buffer s file_path).1.returned = true →
      (Source.save_frame_buffer s file_path).1.state.buffer = []) := by
  have hlen : ¬ s.buffer.length = 0 := by
    intro h0
    exact hne (List.length_eq_zero.mp h0)
  have hmod : (w * h) % UINT_SIZE = w * h := Nat.mod_eq_of_lt hprod
  have hyes : s.buffer.length = w * h →
      save_frame_buffer s file_path w h =
        (.ok s [Message.frame_saved s.frames w h],
          some { path := file_path, magic := "P6", width := w, height := h, maxval := 255,
                 data := s.buffer.flatMap (fun p => [p.r, p.g, p.b]) }) := by
    intro he
    unfold save_frame_buffer
    rw [if_neg hlen, hmod, if_pos he]
  have hno : s.buffer.length ≠ w * h →
      save_frame_buffer s file_path w h = (.abort s [], none) := by
    intro he
    unfold save_frame_buffer
    rw [if_neg hlen, hmod, if_neg he]
  refine ⟨?_, ?_, hno, ?_, ?_⟩
  · by_cases he : s.buffer.length = w * h
    · rw [hyes he]
      exact ⟨fun _ => he, fun _ => rfl⟩
    · rw [hno he]
      exact ⟨fun hc => (by cases hc), fun hc => absurd hc he⟩
  · intro he
    refine ⟨_, hyes he, rfl, rfl, rfl, rfl, ?_⟩
    rw [pixel_bytes_length_aux, he, Nat.mul_assoc]
  · by_cases he : s.buffer.length = w * h
    · rw [hyes he]; rfl
    · rw [hno he]; rfl
  · unfold Source.save_frame_buffer save_frame_buffer
    rw [if_neg hlen]
    split_ifs
    · intro _; rfl
    · intro hc; cases hc

/-- Witness of C14 as amended: a buffer of two pixels saved as a 2 by 1
frame. -/
theorem save_frame_buffer_checks_size_witness :
    ∃ f, save_frame_buffer
        { fresh with buffer := [{ r := 1, g := 2, b := 3 }, { r := 4, g := 5, b := 6 }] }
        "frame1.ppm" 2 1 =
          (.ok { fresh with buffer := [{ r := 1, g := 2, b := 3 }, { r := 4, g := 5, b := 6 }] }
            [Message.frame_saved 0 2 1], some f) ∧
      f.data = [1, 2, 3, 4, 5, 6] := by
  obtain ⟨f, h1, _, _, _, h2, _⟩ :=
    (save_frame_buffer_checks_size
      { fresh with buffer := [{ r := 1, g := 2, b := 3 }, { r := 4, g := 5, b := 6 }] }
      "frame1.ppm" 2 1 (by simp) (by decide)).2.1 rfl
  exact ⟨f, h1, h2⟩

theorem save_frame_buffer_wrap_aux (n w h : Nat) (p : Pixel) (file_path : String)
    (hn : n ≠ 0) (hmod : n = (w * h) % UINT_SIZE) :
    (save_frame_buffer { fresh with buffer := List.replicate n p } file_path w h).1.returned
      = true := by
  unfold save_frame_buffer
  simp only [List.length_replicate]
  rw [if_neg hn, if_pos hmod]
  rfl

/-- C14 as stated fails: after `save_frame_buffer` has saved a one-pixel buffer
as a 1 by 1 frame the buffer still holds the pixel; and a buffer of 65536
pixels is accepted as a 65536 by 65537 frame, because the product is computed
in 32 bits. -/
theorem save_frame_buffer_keeps_buffer :
    (save_frame_buffer { fresh with buffer := [{ r := 1, g := 2, b := 3 }] }
        "frame1.ppm" 1 1).1 =
      .ok { fresh with buffer := [{ r := 1, g := 2, b := 3 }] } [Message.frame_saved 0 1 1] ∧
    (save_frame_buffer { fresh with buffer := List.replicate 65536 { r := 1, g := 2, b := 3 } }
        "frame1.ppm" 65536 65537).1.returned = true ∧
    (65536 : Nat) ≠ 65536 * 65537 :=
  ⟨by decide, save_frame_buffer_wrap_aux 65536 65536 65537 _ _ (by decide) (by decide),
    by decide⟩

/-! ## The guard band pattern -/

/-- C15: `is_video_guard_band` is true for exactly the triple (0b1011001100,
0b0100110011, 0b1011001100), whose channels 0 and 2 agree and differ from
channel 1; none of its characters is a control code, so on a guard band triple
the alignment assertion holds and `validate_characters` takes the guard band
branch, never the control branch, in every state. -/
theorem guard_band_pattern_unique :
    (∀ ch0 ch1 ch2 : Nat, is_video_guard_band ch0 ch1 ch2 = true ↔
      (ch0 = 0b1011001100 ∧ ch1 = 0b0100110011 ∧ ch2 = 0b1011001100)) ∧
    (0b1011001100 : Nat) ≠ 0b0100110011 ∧
    try_decode_as_control 0b1011001100 = none ∧ try_decode_as_control 0b0100110011 = none ∧
    (∀ ch0 ch1 ch2 : Nat, is_video_guard_band ch0 ch1 ch2 = true →
      control_count ch0 ch1 ch2 = 0 ∧
      aligned (try_decode_as_control ch0) (try_decode_as_control ch1)
        (try_decode_as_control ch2) = true ∧
      ∀ s : VideoSourceValidation, validate_characters s ch0 ch1 ch2 = guard_band_branch s) := by
  have key : ∀ ch0 ch1 ch2 : Nat, is_video_guard_band ch0 ch1 ch2 = true ↔
      (ch0 = 0b1011001100 ∧ ch1 = 0b0100110011 ∧ ch2 = 0b1011001100) := by
    intro ch0 ch1 ch2
    simp only [is_video_guard_band, Bool.and_eq_true, beq_iff_eq, and_assoc]
  refine ⟨key, by decide, by decide, by decide, ?_⟩
  intro ch0 ch1 ch2 hg
  obtain ⟨rfl, rfl, rfl⟩ := (key ch0 ch1 ch2).mp hg
  exact ⟨by decide, by decide, fun s => validate_guard_band_aux s _ _ _ hg⟩

/-! ## Every returning call, branch by branch -/

theorem validate_cases_aux (s s1 : VideoSourceValidation) (ch0 ch1 ch2 : Nat)
    (out : List Message) (h : validate_characters s ch0 ch1 ch2 = .ok s1 out) :
    (∃ c0 c1 c2, try_decode_as_control ch0 = some c0 ∧ try_decode_as_control ch1 = some c1 ∧
      try_decode_as_control ch2 = some c2 ∧ control_count ch0 ch1 ch2 = 3 ∧
      control_branch s c0 c1 c2 = .ok s1 out) ∨
    (control_count ch0 ch1 ch2 = 0 ∧ is_video_guard_band ch0 ch1 ch2 = true ∧
      guard_band_branch s = .ok s1 out) ∨
    (control_count ch0 ch1 ch2 = 0 ∧ is_video_guard_band ch0 ch1 ch2 = false ∧
      data_branch s ch0 ch1 ch2 = .ok s1 out) := by
  cases e0 : try_decode_as_control ch0 with
  | none =>
    cases e1 : try_decode_as_control ch1 with
    | some c1 => simp [validate_characters, aligned, e0, e1] at h
    | none =>
      cases e2 : try_decode_as_control ch2 with
      | some c2 => simp [validate_characters, aligned, e0, e1, e2] at h
      | none =>
        have hc : control_count ch0 ch1 ch2 = 0 := by simp [control_count, e0, e1, e2]
        cases hg : is_video_guard_band ch0 ch1 ch2 with
        | true =>
          rw [validate_guard_band_aux s ch0 ch1 ch2 hg] at h
          exact Or.inr (Or.inl ⟨hc, rfl, h⟩)
        | false =>
          rw [validate_data_aux s ch0 ch1 ch2 e0 e1 e2 hg] at h
          exact Or.inr (Or.inr ⟨hc, rfl, h⟩)
  | some c0 =>
    cases e1 : try_decode_as_control ch1 with
    | none => simp [validate_characters, aligned, e0, e1] at h
    | some c1 =>
      cases e2 : try_decode_as_control ch2 with
      | none => simp [validate_characters, aligned, e0, e1, e2] at h
      | some c2 =>
        rw [validate_control_aux s ch0 ch1 ch2 c0 c1 c2 e0 e1 e2] at h
        exact Or.inl ⟨c0, c1, c2, rfl, rfl, rfl, by simp [control_count, e0, e1, e2], h⟩

theorem preamble_update_flags_aux (s m : VideoSourceValidation) (c0 c1 c2 : Nat)
    (out : List Message) (h : preamble_update s c0 c1 c2 = .ok m out) :
    m.video_guard_band = s.video_guard_band ∧ m.guard_band_dots = s.guard_band_dots ∧
    m.control_period = s.control_period ∧ m.video_data_period = s.video_data_period ∧
    ((s.video_preamble = false → s.preamble_dots = 0) →
      (m.video_preamble = false → m.preamble_dots = 0)) := by
  unfold preamble_update at h
  simp only at h
  split_ifs at h <;> cases h
  all_goals refine ⟨rfl, rfl, rfl, rfl, ?_⟩
  all_goals
    intro hinv hc
    simp_all

theorem control_branch_flags_aux (s s1 : VideoSourceValidation) (c0 c1 c2 : Nat)
    (out : List Message) (h : control_branch s c0 c1 c2 = .ok s1 out) :
    s1.video_guard_band = s.video_guard_band ∧ s1.guard_band_dots = s.guard_band_dots ∧
    s1.control_period = true ∧ s1.video_data_period = false ∧
    ((s.video_preamble = false → s.preamble_dots = 0) →
      (s1.video_preamble = false → s1.preamble_dots = 0)) := by
  unfold control_branch at h
  simp only at h
  split at h
  · rename_i m out1 hp
    cases h
    have f := preamble_update_flags_aux _ m c0 c1 c2 _ hp
    obtain ⟨p1, p2, p3, p4, p5, p6, p7, _⟩ := sync_update_phase_aux m c0
    obtain ⟨f1, f2, f3, f4, f5⟩ := f
    refine ⟨p4.trans f1, p7.trans f2, p1.trans f3, p2.trans f4, ?_⟩
    intro hinv
    rw [p3, p6]
    exact f5 hinv
  · cases h

theorem guard_band_branch_flags_aux (s s1 : VideoSourceValidation) (out : List Message)
    (h : guard_band_branch s = .ok s1 out) :
    s1.video_guard_band = true ∧ s1.control_period = s.control_period ∧
    (s.video_guard_band = false → s1.video_data_period = true ∧ s1.video_preamble = false ∧
      s1.preamble_dots = 0) ∧
    (s.video_guard_band = true → s1.video_preamble = s.video_preamble ∧
      s1.preamble_dots = s.preamble_dots ∧ s1.video_data_period = s.video_data_period) := by
  unfold guard_band_branch at h
  simp only at h
  split_ifs at h <;> cases h
  all_goals simp_all

theorem push_pixel_flags_aux (s s1 : VideoSourceValidation) (ch0 ch1 ch2 : Nat)
    (o out : List Message) (h : push_pixel s o ch0 ch1 ch2 = .ok s1 out) :
    out = o ∧ s1.video_guard_band = s.video_guard_band ∧
    s1.guard_band_dots = s.guard_band_dots ∧ s1.video_preamble = s.video_preamble ∧
    s1.preamble_dots = s.preamble_dots ∧ s1.control_period = s.control_period ∧
    s1.video_data_period = s.video_data_period := by
  unfold push_pixel at h
  simp only at h
  cases h2 : decode_data ch2 with
  | none => rw [h2] at h; cases h
  | some r =>
    cases h1 : decode_data ch1 with
    | none => rw [h2, h1] at h; cases h
    | some g =>
      cases h0 : decode_data ch0 with
      | none => rw [h2, h1, h0] at h; cases h
      | some b =>
        rw [h2, h1, h0] at h
        cases h
        exact ⟨rfl, rfl, rfl, rfl, rfl, rfl, rfl⟩

theorem data_branch_flags_aux (s s1 : VideoSourceValidation) (ch0 ch1 ch2 : Nat)
    (out : List Message) (h : data_branch s ch0 ch1 ch2 = .ok s1 out) :
    s1.video_guard_band = false ∧ s1.guard_band_dots = (if s.video_guard_band then 0
      else s.guard_band_dots) ∧
    s1.video_preamble = s.video_preamble ∧ s1.preamble_dots = s.preamble_dots ∧
    s1.control_period = s.control_period ∧ s.video_data_period = true ∧
    out = (if s.video_guard_band = true ∧ s.guard_band_dots ≠ 2
      then [Message.guard_band_incorrect_length s.guard_band_dots] else []) := by
  unfold data_branch at h
  by_cases hv : s.video_data_period = true
  · rw [if_pos hv] at h
    by_cases hg : s.video_guard_band = true
    · rw [if_pos hg] at h
      by_cases hz : s.h_active_dots = 0
      · rw [if_pos hz] at h
        have w := push_pixel_flags_aux _ s1 ch0 ch1 ch2 _ out h
        obtain ⟨w1, w2, w3, w4, w5, w6, _⟩ := w
        refine ⟨w2, ?_, w4, w5, w6, hv, ?_⟩
        · rw [w3, hg]; rfl
        · rw [w1]
          by_cases h2 : s.guard_band_dots = 2 <;> simp [hg, h2]
      · rw [if_neg hz] at h; cases h
    · rw [if_neg hg] at h
      have w := push_pixel_flags_aux _ s1 ch0 ch1 ch2 _ out h
      obtain ⟨w1, w2, w3, w4, w5, w6, _⟩ := w
      have hf : s.video_guard_band = false := by simpa using hg
      refine ⟨w2.trans hf, ?_, w4, w5, w6, hv, ?_⟩
      · rw [w3, hf]; rfl
      · rw [w1]; simp [hf]
  · rw [if_neg hv] at h; cases h

theorem guard_band_pattern_flags_aux (ch0 ch1 ch2 : Nat)
    (h : is_video_guard_band ch0 ch1 ch2 = true) : control_count ch0 ch1 ch2 = 0 := by
  simp only [is_video_guard_band, Bool.and_eq_true, beq_iff_eq] at h
  obtain ⟨⟨rfl, rfl⟩, rfl⟩ := h
  decide

/-! ## The guard band flag -/

/-- C16, as amended: for every state and every triple on which
`validate_characters` returns, `video_guard_band` goes from false to true only
on a guard band triple (and does so on every guard band triple), with
`video_data_period` true after that call; and it goes from true to false
exactly when the triple is neither a control triple nor a guard band triple,
whatever `guard_band_dots` is: when `guard_band_dots` is not 2 the call writes
a "Video guard band incorrect length" line and clears the flag all the
same. -/
theorem guard_band_flag_transitions (s s1 : VideoSourceValidation) (ch0 ch1 ch2 : Nat)
    (out : List Message) (h : validate_characters s ch0 ch1 ch2 = .ok s1 out) :
    (s.video_guard_band = false → s1.video_guard_band = true →
      is_video_guard_band ch0 ch1 ch2 = true ∧ s1.video_data_period = true) ∧
    (is_video_guard_band ch0 ch1 ch2 = true → s1.video_guard_band = true) ∧
    (s.video_guard_band = true →
      (s1.video_guard_band = false ↔
        (control_count ch0 ch1 ch2 = 0 ∧ is_video_guard_band ch0 ch1 ch2 = false))) ∧
    (s.video_guard_band = true → s1.video_guard_band = false →
      out = (if s.guard_band_dots ≠ 2
        then [Message.guard_band_incorrect_length s.guard_band_dots] else [])) := by
  rcases validate_cases_aux s s1 ch0 ch1 ch2 out h with
    ⟨c0, c1, c2, _, _, _, hc, hb⟩ | ⟨hc, hg, hb⟩ | ⟨hc, hg, hb⟩
  · obtain ⟨f1, _, _, _, _⟩ := control_branch_flags_aux s s1 c0 c1 c2 out hb
    have hng : is_video_guard_band ch0 ch1 ch2 = false := by
      cases hgb : is_video_guard_band ch0 ch1 ch2 with
      | false => rfl
      | true =>
        have := (guard_band_pattern_flags_aux ch0 ch1 ch2 hgb)
        omega
    refine ⟨?_, ?_, ?_, ?_⟩
    · intro h0 h1
      rw [f1, h0] at h1
      cases h1
    · intro hgb
      rw [hng] at hgb
      cases hgb
    · intro h1
      rw [f1, h1]
      constructor
      · intro hc2; cases hc2
      · intro hc2; omega
    · intro h1 h2
      rw [f1, h1] at h2
      cases h2
  · obtain ⟨g1, _, g3, _⟩ := guard_band_branch_flags_aux s s1 out hb
    refine ⟨?_, fun _ => g1, ?_, ?_⟩
    · intro h0 _
      exact ⟨hg, (g3 h0).1⟩
    · intro _
      rw [g1, hg]
      constructor
      · intro hc2; cases hc2
      · intro hc2; cases hc2.2
    · intro _ h2
      rw [g1] at h2
      cases h2
  · obtain ⟨d1, _, _, _, _, _, d7⟩ := data_branch_flags_aux s s1 ch0 ch1 ch2 out hb
    refine ⟨?_, ?_, ?_, ?_⟩
    · intro _ h1
      rw [d1] at h1
      cases h1
    · intro hgb
      rw [hg] at hgb
      cases hgb
    · intro _
      exact ⟨fun _ => ⟨hc, hg⟩, fun _ => d1⟩
    · intro h1 _
      rw [d7]
      by_cases h2 : s.guard_band_dots = 2 <;> simp [h1, h2]

/-- Witness of C16 as amended: the first data triple after a guard band of two
dots clears the flag and writes nothing. -/
theorem guard_band_flag_transitions_witness :
    ∃ s1 : VideoSourceValidation,
      validate_characters
        { fresh with video_guard_band := true, video_data_period := true, guard_band_dots := 2 }
        0 1 2 = .ok s1 [] ∧ s1.video_guard_band = false := by
  have h : validate_characters
      { fresh with video_guard_band := true, video_data_period := true, guard_band_dots := 2 }
      0 1 2 = .ok (validate_characters
        { fresh with video_guard_band := true, video_data_period := true, guard_band_dots := 2 }
        0 1 2).state [] := by decide
  exact ⟨_, h, ((guard_band_flag_transitions _ _ 0 1 2 [] h).2.2.1 rfl).mpr
    ⟨by decide, by decide⟩⟩

/-- C16 as stated fails: a data triple that arrives when `guard_band_dots` is 1
clears `video_guard_band` (and `guard_band_dots`) and is reported as "Video
guard band incorrect length, 1 dots."; the flag does not stay set. -/
theorem guard_band_flag_cleared_on_short_guard_band :
    validate_characters
        { fresh with video_guard_band := true, video_data_period := true, guard_band_dots := 1 }
        0 1 2 =
      .ok { fresh with video_guard_band := false, video_data_period := true,
                       guard_band_dots := 0, h_active_dots := 1,
                       buffer := [{ r := 248, g := 253, b := 254 }] }
        [Message.guard_band_incorrect_length 1] := by
  decide

/-! ## Reachable states -/

theorem phase_invariant_step_aux (s s1 : VideoSourceValidation) (ch0 ch1 ch2 : Nat)
    (out : List Message) (hinv : phase_invariant s)
    (h : validate_characters s ch0 ch1 ch2 = .ok s1 out) : phase_invariant s1 := by
  obtain ⟨i1, i2, i3⟩ := hinv
  rcases validate_cases_aux s s1 ch0 ch1 ch2 out h with
    ⟨c0, c1, c2, _, _, _, _, hb⟩ | ⟨_, _, hb⟩ | ⟨_, _, hb⟩
  · obtain ⟨f1, f2, f3, _, f5⟩ := control_branch_flags_aux s s1 c0 c1 c2 out hb
    refine ⟨fun _ => f3, f5 i2, ?_⟩
    intro hg
    rw [f2]
    exact i3 (f1 ▸ hg)
  · obtain ⟨g1, g2, g3, g4⟩ := guard_band_branch_flags_aux s s1 out hb
    cases hv : s.video_guard_band with
    | false =>
      obtain ⟨_, a2, a3⟩ := g3 hv
      refine ⟨?_, fun _ => a3, ?_⟩
      · intro hp; rw [a2] at hp; cases hp
      · intro hg; rw [g1] at hg; cases hg
    | true =>
      obtain ⟨a1, a2, _⟩ := g4 hv
      refine ⟨?_, ?_, ?_⟩
      · intro hp
        rw [g2]
        exact i1 (a1 ▸ hp)
      · intro hp
        rw [a2]
        exact i2 (a1 ▸ hp)
      · intro hg; rw [g1] at hg; cases hg
  · obtain ⟨d1, d2, d3, d4, d5, _, _⟩ := data_branch_flags_aux s s1 ch0 ch1 ch2 out hb
    refine ⟨?_, ?_, ?_⟩
    · intro hp
      rw [d5]
      exact i1 (d3 ▸ hp)
    · intro hp
      rw [d4]
      exact i2 (d3 ▸ hp)
    · intro _
      rw [d2]
      cases hv : s.video_guard_band with
      | false => simpa using i3 hv
      | true => rfl

theorem feed_cons_inv_aux (s s1 : VideoSourceValidation) (t : Triple) (rest : List Triple)
    (out : List Message) (h : feed s (t :: rest) = .ok s1 out) :
    ∃ m o1 o2, validate_characters s t.1 t.2.1 t.2.2 = .ok m o1 ∧
      feed m rest = .ok s1 o2 ∧ out = o1 ++ o2 := by
  simp only [feed] at h
  cases hv : validate_characters s t.1 t.2.1 t.2.2 with
  | abort sa oa => rw [hv] at h; cases h
  | ok sa oa =>
    rw [hv] at h
    simp only at h
    cases hr : feed sa rest with
    | abort sb ob => rw [hr] at h; cases h
    | ok sb ob =>
      rw [hr] at h
      cases h
      exact ⟨sa, oa, ob, rfl, hr, rfl⟩

theorem phase_invariant_feed_aux (l : List Triple) :
    ∀ (s s1 : VideoSourceValidation) (out : List Message), phase_invariant s →
      feed s l = .ok s1 out → phase_invariant s1 := by
  induction l with
  | nil =>
    intro s s1 out hinv h
    simp only [feed] at h
    cases h
    exact hinv
  | cons t rest ih =>
    intro s s1 out hinv h
    obtain ⟨m, o1, o2, hstep, hrest, _⟩ := feed_cons_inv_aux s s1 t rest out h
    exact ih m s1 o2 (phase_invariant_step_aux s m _ _ _ o1 hinv hstep) hrest

theorem reachable_invariant_aux (s : VideoSourceValidation) (h : reachable s) :
    phase_invariant s := by
  obtain ⟨l, out, hf⟩ := h
  exact phase_invariant_feed_aux l fresh s out ⟨fun hc => (by cases hc), fun _ => rfl,
    fun _ => rfl⟩ hf

/-- C17: in every state a fresh validator reaches through calls of
`validate_characters` that all returned, `video_preamble` being true implies
that `control_period` is true. -/
theorem preamble_only_in_control_period (s : VideoSourceValidation) (h : reachable s)
    (hp : s.video_preamble = true) : s.control_period = true :=
  (reachable_invariant_aux s h).1 hp

/-- Witness of C17: the state after one preamble triple. -/
theorem preamble_only_in_control_period_witness :
    ({ fresh with control_period := true, video_preamble := true, control_period_dots := 1,
                  preamble_dots := 1 } : VideoSourceValidation).control_period = true :=
  preamble_only_in_control_period
    { fresh with control_period := true, video_preamble := true, control_period_dots := 1,
                 preamble_dots := 1 }
    ⟨[(CTL_00, CTL_01, CTL_00)], [Message.preamble_spacing 1], by decide⟩ rfl

/-- C19: in every state a fresh validator reaches through calls of
`validate_characters` that all returned, `video_preamble = false` implies
`preamble_dots = 0` and `video_guard_band = false` implies
`guard_band_dots = 0`. So the assertion `preamble_dots == 0` never fails:
every control triple returns, the alignment assertion being the only other
one on its path; and the assertion `guard_band_dots == 0` never fails: a guard
band triple can only abort, in a state with `video_guard_band` clear, on the
assertion `control_period_dots > preamble_dots`. -/
theorem dot_counters_zero_when_flags_clear (s : VideoSourceValidation) (h : reachable s) :
    (s.video_preamble = false → s.preamble_dots = 0) ∧
    (s.video_guard_band = false → s.guard_band_dots = 0) ∧
    (∀ t : Triple, is_control_triple t = true →
      (validate_characters s t.1 t.2.1 t.2.2).returned = true) ∧
    (∀ ch0 ch1 ch2 : Nat, is_video_guard_band ch0 ch1 ch2 = true →
      (validate_characters s ch0 ch1 ch2).returned = false →
      s.video_guard_band = false ∧ s.guard_band_dots = 0 ∧
        ¬ s.control_period_dots > s.preamble_dots) := by
  obtain ⟨_, i2, i3⟩ := reachable_invariant_aux s h
  refine ⟨i2, i3, ?_, ?_⟩
  · intro t ht
    obtain ⟨s1, out, hstep, _⟩ := control_triple_step_aux s t ht i2
    rw [hstep]
    rfl
  · intro ch0 ch1 ch2 hg hr
    rw [validate_guard_band_aux s ch0 ch1 ch2 hg] at hr
    unfold guard_band_branch at hr
    cases hv : s.video_guard_band with
    | true => simp [hv, Outcome.returned] at hr
    | false =>
      refine ⟨rfl, i3 hv, ?_⟩
      intro hc
      simp [hv, hc, i3 hv, Outcome.returned] at hr

/-- Witness of C19: the state after one preamble triple and two guard band
dots. -/
theorem dot_counters_zero_when_flags_clear_witness :
    ({ fresh with control_period := true, video_data_period := true, video_guard_band := true,
                  guard_band_dots := 2, v_active_lines := 1 } : VideoSourceValidation).preamble_dots
      = 0 :=
  (dot_counters_zero_when_flags_clear
    { fresh with control_period := true, video_data_period := true, video_guard_band := true,
                 guard_band_dots := 2, v_active_lines := 1 }
    ⟨[(CTL_00, CTL_00, CTL_00), (CTL_00, CTL_01, CTL_00), guard_band, guard_band],
      [Message.preamble_spacing 2, Message.preamble_incorrect_length 1], by decide⟩).1 rfl

/-- C18: in a reachable state, a control triple whose channel 1 decodes to
0b01 and channel 2 to 0b00 makes `validate_characters` return, whatever
control character channel 0 holds. If `video_preamble` was false the call
sets it and leaves `preamble_dots = 1`; if it was true, `preamble_dots` is
incremented by one (as a `uint`) and a "Preamble too long" line naming the new
count is written iff the new count exceeds 8. The state after the call is
`sync_update m c0`, where `m` and the messages are fixed by the state before
and `c0` is the control value of channel 0, and `sync_update` leaves the
preamble flag and counter alone. -/
theorem preamble_triple_counts (s : VideoSourceValidation) (h : reachable s) :
    ∃ (m : VideoSourceValidation) (out : List Message),
      (∀ t : Triple, is_preamble_triple t = true →
        ∃ c0, try_decode_as_control t.1 = some c0 ∧
          validate_characters s t.1 t.2.1 t.2.2 = .ok (sync_update m c0) out ∧
          (sync_update m c0).video_preamble = m.video_preamble ∧
          (sync_update m c0).preamble_dots = m.preamble_dots) ∧
      m.video_preamble = true ∧
      (s.video_preamble = false → m.preamble_dots = 1) ∧
      (s.video_preamble = true → m.preamble_dots = uincr s.preamble_dots ∧
        out = (if uincr s.preamble_dots > 8
          then [Message.preamble_too_long (uincr s.preamble_dots)] else []) ∧
        (Message.preamble_too_long (uincr s.preamble_dots) ∈ out ↔ uincr s.preamble_dots > 8) ∧
        (s.preamble_dots + 1 < UINT_SIZE → m.preamble_dots = s.preamble_dots + 1)) := by
  obtain ⟨_, i2, _⟩ := reachable_invariant_aux s h
  cases hv : s.video_preamble with
  | false =>
    refine ⟨{ s with video_data_period := false, control_period := true,
                     control_period_dots := uincr s.control_period_dots,
                     video_preamble := true, preamble_dots := 1 },
      (if uincr s.control_period_dots < 4
        then [Message.preamble_spacing (uincr s.control_period_dots)] else []),
      ?_, rfl, fun _ => rfl, fun hc => (by cases hc)⟩
    intro t ht
    obtain ⟨c0, e0, hstep⟩ := preamble_step_aux s t ht
    rw [preamble_first_aux s c0 hv (i2 hv)] at hstep
    obtain ⟨_, _, p3, _, _, p6, _, _⟩ := sync_update_phase_aux
      { s with video_data_period := false, control_period := true,
               control_period_dots := uincr s.control_period_dots,
               video_preamble := true, preamble_dots := 1 } c0
    exact ⟨c0, e0, hstep, p3, p6⟩
  | true =>
    refine ⟨{ s with video_data_period := false, control_period := true,
                     control_period_dots := uincr s.control_period_dots,
                     preamble_dots := uincr s.preamble_dots },
      (if uincr s.preamble_dots > 8
        then [Message.preamble_too_long (uincr s.preamble_dots)] else []),
      ?_, hv, fun hc => (by cases hc), fun _ => ⟨rfl, rfl, ?_, ?_⟩⟩
    · intro t ht
      obtain ⟨c0, e0, hstep⟩ := preamble_step_aux s t ht
      rw [preamble_next_aux s c0 hv] at hstep
      obtain ⟨_, _, p3, _, _, p6, _, _⟩ := sync_update_phase_aux
        { s with video_data_period := false, control_period := true,
                 control_period_dots := uincr s.control_period_dots,
                 preamble_dots := uincr s.preamble_dots } c0
      exact ⟨c0, e0, hstep, p3, p6⟩
    · by_cases h8 : uincr s.preamble_dots > 8 <;> simp [h8]
    · intro hlt
      exact Nat.mod_eq_of_lt hlt

/-- Witness of C18: the ninth preamble dot is reported as too long. -/
theorem preamble_triple_counts_witness :
    ∃ (m : VideoSourceValidation) (out : List Message),
      (∀ t : Triple, is_preamble_triple t = true →
        ∃ c0, try_decode_as_control t.1 = some c0 ∧
          validate_characters
            { fresh with control_period := true, video_preamble := true,
                         control_period_dots := 8, preamble_dots := 8 }
            t.1 t.2.1 t.2.2 = .ok (sync_update m c0) out) ∧
      m.preamble_dots = 9 ∧ out = [Message.preamble_too_long 9] := by
  obtain ⟨m, out, h1, _, _, h4⟩ := preamble_triple_counts
    { fresh with control_period := true, video_preamble := true,
                 control_period_dots := 8, preamble_dots := 8 }
    ⟨List.replicate 8 (CTL_00, CTL_01, CTL_00), [Message.preamble_spacing 1], by decide⟩
  obtain ⟨a, b, _, _⟩ := h4 rfl
  refine ⟨m, out, ?_, a, b⟩
  intro t ht
  obtain ⟨c0, e0, hstep, _, _⟩ := h1 t ht
  exact ⟨c0, e0, hstep⟩

/-! ## A line of video up to the next horizontal sync -/

theorem sync_update_low_aux (s : VideoSourceValidation) (c0 : Nat)
    (hh : ((c0 &&& 0x1) != 0) = false) :
    sync_update s c0 = { s with previous_h_sync := false } := by
  unfold sync_update
  simp only [hh, Bool.and_false, Bool.false_eq_true, if_false]

theorem sync_update_rising_aux (s : VideoSourceValidation) (c0 : Nat)
    (hp : s.previous_h_sync = false) (hh : ((c0 &&& 0x1) != 0) = true)
    (hv : ((c0 &&& 0x2) != 0) = false) (hw : s.previous_h_active_dots = 0) :
    sync_update s c0 =
      { s with previous_h_active_dots := s.h_active_dots, previous_v_sync := false,
               h_active_dots := 0, previous_h_sync := true } := by
  unfold sync_update
  simp only [hp, hh, hv, hw, Bool.not_false, Bool.and_true, Bool.and_false, if_true,
    Bool.false_eq_true, if_false, true_or]

theorem preamble_is_control_aux (t : Triple) (h : is_preamble_triple t = true) :
    is_control_triple t = true := by
  unfold is_preamble_triple at h
  unfold is_control_triple
  simp only [Bool.and_eq_true, beq_iff_eq] at h ⊢
  obtain ⟨⟨h0, h1⟩, h2⟩ := h
  rw [h1, h2]
  exact ⟨⟨h0, rfl⟩, rfl⟩

theorem low_sync_step_aux (s s1 : VideoSourceValidation) (t : Triple) (out : List Message)
    (ht : is_control_triple t = true) (hl : h_sync_bit t = false)
    (h : validate_characters s t.1 t.2.1 t.2.2 = .ok s1 out) :
    s1.frames = s.frames ∧ s1.v_active_lines = s.v_active_lines ∧
    s1.previous_h_active_dots = s.previous_h_active_dots ∧
    s1.h_active_dots = s.h_active_dots ∧ s1.previous_v_sync = s.previous_v_sync ∧
    s1.previous_h_sync = false := by
  unfold is_control_triple at ht
  cases e0 : try_decode_as_control t.1 with
  | none => simp [e0] at ht
  | some c0 =>
    cases e1 : try_decode_as_control t.2.1 with
    | none => simp [e1] at ht
    | some c1 =>
      cases e2 : try_decode_as_control t.2.2 with
      | none => simp [e2] at ht
      | some c2 =>
        rw [validate_control_aux s _ _ _ c0 c1 c2 e0 e1 e2] at h
        obtain ⟨m, rfl, _, k2, k3, k4, k5, k6⟩ := control_branch_ok_aux s _ c0 c1 c2 out h
        have hh : ((c0 &&& 0x1) != 0) = false := by
          simpa only [h_sync_bit, e0] using hl
        rw [sync_update_low_aux m c0 hh]
        exact ⟨k3, k6, k4, k5, k2, rfl⟩

theorem low_sync_run_aux (l : List Triple) :
    ∀ (s s1 : VideoSourceValidation) (out : List Message),
      (∀ t ∈ l, is_control_triple t = true ∧ h_sync_bit t = false) →
      feed s l = .ok s1 out →
      s1.frames = s.frames ∧ s1.v_active_lines = s.v_active_lines ∧
      s1.previous_h_active_dots = s.previous_h_active_dots ∧
      s1.h_active_dots = s.h_active_dots ∧ s1.previous_v_sync = s.previous_v_sync ∧
      (s.previous_h_sync = false → s1.previous_h_sync = false) := by
  induction l with
  | nil =>
    intro s s1 out _ h
    simp only [feed] at h
    cases h
    exact ⟨rfl, rfl, rfl, rfl, rfl, id⟩
  | cons t rest ih =>
    intro s s1 out hl h
    obtain ⟨m, o1, o2, hstep, hrest, _⟩ := feed_cons_inv_aux s s1 t rest out h
    obtain ⟨hc, hlow⟩ := hl t (List.mem_cons_self t rest)
    obtain ⟨a1, a2, a3, a4, a5, a6⟩ := low_sync_step_aux s m t o1 hc hlow hstep
    obtain ⟨b1, b2, b3, b4, b5, b6⟩ :=
      ih m s1 o2 (fun u hu => hl u (List.mem_cons_of_mem t hu)) hrest
    exact ⟨b1.trans a1, b2.trans a2, b3.trans a3, b4.trans a4, b5.trans a5, fun _ => b6 a6⟩

theorem data_run_counts_aux (l : List Triple) :
    ∀ (s s1 : VideoSourceValidation) (out : List Message),
      (∀ t ∈ l, is_data_triple t = true) → s.h_active_dots < UINT_SIZE →
      feed s l = .ok s1 out →
      s1.h_active_dots = (s.h_active_dots + l.length) % UINT_SIZE ∧
      s1.frames = s.frames ∧ s1.v_active_lines = s.v_active_lines ∧
      s1.previous_h_active_dots = s.previous_h_active_dots ∧
      s1.previous_h_sync = s.previous_h_sync ∧ s1.previous_v_sync = s.previous_v_sync ∧
      s1.video_data_period = s.video_data_period := by
  induction l with
  | nil =>
    intro s s1 out _ hb h
    simp only [feed] at h
    cases h
    exact ⟨(Nat.mod_eq_of_lt hb).symm, rfl, rfl, rfl, rfl, rfl, rfl⟩
  | cons t rest ih =>
    intro s s1 out hl hb h
    obtain ⟨m, o1, o2, hstep, hrest, _⟩ := feed_cons_inv_aux s s1 t rest out h
    have hd := hl t (List.mem_cons_self t rest)
    have hm : m.h_active_dots = uincr s.h_active_dots ∧ m.frames = s.frames ∧
        m.v_active_lines = s.v_active_lines ∧
        m.previous_h_active_dots = s.previous_h_active_dots ∧
        m.previous_h_sync = s.previous_h_sync ∧ m.previous_v_sync = s.previous_v_sync ∧
        m.video_data_period = s.video_data_period := by
      rcases validate_cases_aux s m _ _ _ o1 hstep with
        ⟨c0, c1, c2, e0, _, _, _, _⟩ | ⟨_, hg, _⟩ | ⟨_, _, hb2⟩
      · simp [is_data_triple, e0] at hd
      · simp [is_data_triple, hg] at hd
      · have hv : s.video_data_period = true :=
          (data_branch_flags_aux s m _ _ _ o1 hb2).2.2.2.2.2.1
        have hz : s.video_guard_band = true → s.h_active_dots = 0 := by
          intro hg
          by_contra hne
          simp [data_branch, hv, hg, hne] at hb2
        have e := data_step_aux s t hd hv hz
        rw [e] at hstep
        cases hstep
        exact ⟨rfl, rfl, rfl, rfl, rfl, rfl, rfl⟩
    obtain ⟨m1, m2, m3, m4, m5, m6, m7⟩ := hm
    obtain ⟨b1, b2, b3, b4, b5, b6, b7⟩ :=
      ih m s1 o2 (fun u hu => hl u (List.mem_cons_of_mem t hu)) (m1 ▸ uincr_lt_aux _) hrest
    refine ⟨?_, b2.trans m2, b3.trans m3, b4.trans m4, b5.trans m5, b6.trans m6, b7.trans m7⟩
    rw [b1, m1]
    simp only [uincr, UINT_SIZE, List.length_cons]
    omega

theorem guard_band_pair_explicit_aux (s : VideoSourceValidation)
    (hg : s.video_guard_band = false) (hz : s.guard_band_dots = 0)
    (hc : s.control_period_dots > s.preamble_dots) :
    feed s [guard_band, guard_band] =
      .ok { s with video_preamble := false, control_period_dots := 0, preamble_dots := 0,
                   video_guard_band := true, video_data_period := true,
                   guard_band_dots := 2, v_active_lines := uincr s.v_active_lines }
        (if s.preamble_dots ≠ 8
          then [Message.preamble_incorrect_length s.preamble_dots] else []) := by
  have e1 : validate_characters s guard_band.1 guard_band.2.1 guard_band.2.2 =
      .ok { s with video_preamble := false, control_period_dots := 0, preamble_dots := 0,
                   video_guard_band := true, video_data_period := true,
                   guard_band_dots := 1, v_active_lines := uincr s.v_active_lines }
        (if s.preamble_dots ≠ 8
          then [Message.preamble_incorrect_length s.preamble_dots] else []) := by
    rw [validate_guard_band_aux s guard_band.1 guard_band.2.1 guard_band.2.2 (by decide)]
    simp [guard_band_branch, hg, hz, hc, uincr, UINT_SIZE]
  have e2 : validate_characters
      { s with video_preamble := false, control_period_dots := 0, preamble_dots := 0,
               video_guard_band := true, video_data_period := true,
               guard_band_dots := 1, v_active_lines := uincr s.v_active_lines }
      guard_band.1 guard_band.2.1 guard_band.2.2 =
      .ok { s with video_preamble := false, control_period_dots := 0, preamble_dots := 0,
                   video_guard_band := true, video_data_period := true,
                   guard_band_dots := 2, v_active_lines := uincr s.v_active_lines } [] := by
    rw [validate_guard_band_aux _ guard_band.1 guard_band.2.1 guard_band.2.2 (by decide)]
    simp [guard_band_branch, uincr, UINT_SIZE]
  rw [feed_cons_ok_aux s _ guard_band [guard_band] _ e1,
    feed_cons_ok_aux _ _ guard_band [] _ e2]
  simp [feed]

theorem guard_band_pair_fields_aux (s : VideoSourceValidation)
    (hg : s.video_guard_band = false) (hz : s.guard_band_dots = 0)
    (hc : s.control_period_dots > s.preamble_dots) :
    ∃ sb, feed s [guard_band, guard_band] =
        .ok sb (if s.preamble_dots ≠ 8
          then [Message.preamble_incorrect_length s.preamble_dots] else []) ∧
      sb.video_guard_band = true ∧ sb.video_data_period = true ∧ sb.guard_band_dots = 2 ∧
      sb.control_period_dots = 0 ∧ sb.buffer = s.buffer ∧
      sb.h_active_dots = s.h_active_dots ∧ sb.v_active_lines = uincr s.v_active_lines ∧
      sb.frames = s.frames ∧ sb.previous_h_active_dots = s.previous_h_active_dots ∧
      sb.previous_h_sync = s.previous_h_sync ∧ sb.previous_v_sync = s.previous_v_sync :=
  ⟨_, guard_band_pair_explicit_aux s hg hz hc, rfl, rfl, rfl, rfl, rfl, rfl, rfl, rfl, rfl, rfl,
    rfl⟩

theorem closing_step_facts_aux (s : VideoSourceValidation) (t : Triple)
    (hc : is_control_triple t = true) (hp : is_preamble_triple t = false)
    (hh : h_sync_bit t = true) (hv : v_sync_bit t = false)
    (hs : s.previous_h_sync = false) (hw : s.previous_h_active_dots = 0) :
    ∃ s1, validate_characters s t.1 t.2.1 t.2.2 = .ok s1 [] ∧ s1.buffer = s.buffer ∧
      s1.previous_h_active_dots = s.h_active_dots ∧ s1.h_active_dots = 0 ∧
      s1.v_active_lines = s.v_active_lines ∧ s1.frames = s.frames ∧
      s1.video_data_period = false := by
  obtain ⟨c0, e0, hstep⟩ := control_step_plain_aux s t hc hp
  have hh2 : ((c0 &&& 0x1) != 0) = true := by simpa only [h_sync_bit, e0] using hh
  have hv2 : ((c0 &&& 0x2) != 0) = false := by simpa only [v_sync_bit, e0] using hv
  have e := sync_update_rising_aux
    { s with video_data_period := false, control_period := true,
             control_period_dots := uincr s.control_period_dots } c0 hs hh2 hv2 hw
  rw [e] at hstep
  exact ⟨_, hstep, rfl, rfl, rfl, rfl, rfl, rfl⟩

theorem line_aux (lead pre data : List Triple) (last : Triple)
    (hlead4 : 4 ≤ lead.length)
    (hlead : ∀ t ∈ lead, is_control_triple t = true ∧ is_preamble_triple t = false ∧
      h_sync_bit t = false)
    (hpre8 : pre.length = 8)
    (hpre : ∀ t ∈ pre, is_preamble_triple t = true ∧ h_sync_bit t = false)
    (hdata : ∀ t ∈ data, is_data_triple t = true)
    (hlast : is_control_triple last = true ∧ is_preamble_triple last = false ∧
      h_sync_bit last = true ∧ v_sync_bit last = false)
    (hbound : lead.length + 8 < UINT_SIZE) :
    ∃ s1, feed fresh (lead ++ pre ++ [guard_band, guard_band] ++ data ++ [last]) = .ok s1 [] ∧
      s1.buffer = data.map pixel_of ∧
      s1.previous_h_active_dots = data.length % UINT_SIZE ∧ s1.h_active_dots = 0 ∧
      s1.v_active_lines = 1 ∧ s1.frames = 0 ∧ s1.video_data_period = false := by
  have hN : UINT_SIZE = 4294967296 := rfl
  obtain ⟨sa, outa, ha, a1, a2, a3, a4, a5, a6, a7, _, a9⟩ :=
    lead_preamble_aux lead pre (fun t ht => ⟨(hlead t ht).1, (hlead t ht).2.1⟩)
      (fun t ht => (hpre t ht).1)
  have houta : outa = [] := a9 (by omega) (by omega) (by omega)
  subst houta
  have hlow : ∀ t ∈ lead ++ pre, is_control_triple t = true ∧ h_sync_bit t = false := by
    intro t ht
    rcases List.mem_append.mp ht with h1 | h1
    · exact ⟨(hlead t h1).1, (hlead t h1).2.2⟩
    · exact ⟨preamble_is_control_aux t (hpre t h1).1, (hpre t h1).2⟩
  obtain ⟨l1, _, l3, _, _, l6⟩ := low_sync_run_aux (lead ++ pre) fresh sa [] hlow ha
  have apd : sa.preamble_dots = 8 := by rw [a1, hpre8]; rfl
  have acpd : sa.control_period_dots = lead.length + 8 := by
    rw [a2, hpre8]
    exact Nat.mod_eq_of_lt hbound
  obtain ⟨sb, hb, b1, b2, b3, b4, b5, b6, b7, b8, b9, b10, _⟩ :=
    guard_band_pair_fields_aux sa a3 a4 (by omega)
  rw [if_neg (by simp [apd])] at hb
  obtain ⟨sc, hc, c1, _, _, _⟩ := data_run_aux data sb hdata b2 (fun _ => ⟨b6.trans a6, b3⟩)
  obtain ⟨d1, d2, d3, d4, d5, _, _⟩ :=
    data_run_counts_aux data sb sc [] hdata (by rw [b6, a6]; decide) hc
  obtain ⟨sd, hd, e1, e2, e3, e4, e5, e6⟩ :=
    closing_step_facts_aux sc last hlast.1 hlast.2.1 hlast.2.2.1 hlast.2.2.2
      (d5.trans (b10.trans (l6 rfl))) (d4.trans (b9.trans l3))
  have hd2 : feed sc [last] = .ok sd [] := by
    rw [feed_cons_ok_aux sc sd last [] [] hd]
    rfl
  have h1 := feed_append_returns_aux _ _ fresh sa sb [] [] ha hb
  have h2 := feed_append_returns_aux _ _ fresh sb sc _ [] h1 hc
  have h3 := feed_append_returns_aux _ _ fresh sc sd _ [] h2 hd2
  refine ⟨sd, by simpa using h3, ?_, ?_, e3, ?_, ?_, e6⟩
  · rw [e1, c1, b5, a5]
    rfl
  · rw [e2, d1, b6, a6, Nat.zero_add]
  · rw [e4, d3, b7, a7]
    rfl
  · rw [e5, d2, b8, l1]
    rfl

/-- C20, as amended: for every `N < 2 ^ 32` and every `N` data triples, a
fresh validator fed `m >= 4` control triples that are not preamble with
horizontal sync low (`m + 8 < 2 ^ 32`), 8 preamble triples with horizontal
sync low, 2 guard band triples, the `N` data triples and then one control
triple that is not a preamble triple, with horizontal sync high and vertical
sync low, returns from every call and writes no message, and ends with the
buffer holding the `N` decoded pixels in stream order,
`previous_h_active_dots = N`, `h_active_dots = 0`, `v_active_lines = 1`,
`frames = 0` and `video_data_period` false. -/
theorem line_recorded_at_h_sync (lead pre data : List Triple) (last : Triple)
    (hlead4 : 4 ≤ lead.length)
    (hlead : ∀ t ∈ lead, is_control_triple t = true ∧ is_preamble_triple t = false ∧
      h_sync_bit t = false)
    (hpre8 : pre.length = 8)
    (hpre : ∀ t ∈ pre, is_preamble_triple t = true ∧ h_sync_bit t = false)
    (hdata : ∀ t ∈ data, is_data_triple t = true)
    (hlast : is_control_triple last = true ∧ is_preamble_triple last = false ∧
      h_sync_bit last = true ∧ v_sync_bit last = false)
    (hbound : lead.length + 8 < UINT_SIZE) (hN : data.length < UINT_SIZE) :
    ∃ s1, feed fresh (lead ++ pre ++ [guard_band, guard_band] ++ data ++ [last]) = .ok s1 [] ∧
      s1.buffer = data.map pixel_of ∧ s1.buffer.length = data.length ∧
      s1.previous_h_active_dots = data.length ∧ s1.h_active_dots = 0 ∧
      s1.v_active_lines = 1 ∧ s1.frames = 0 ∧ s1.video_data_period = false := by
  obtain ⟨s1, h1, h2, h3, h4, h5, h6, h7⟩ :=
    line_aux lead pre data last hlead4 hlead hpre8 hpre hdata hlast hbound
  refine ⟨s1, h1, h2, ?_, ?_, h4, h5, h6, h7⟩
  · rw [h2, List.length_map]
  · rw [h3]
    exact Nat.mod_eq_of_lt hN

/-- Witness of C20 as amended: a line of three data dots. -/
theorem line_recorded_at_h_sync_witness :
    ∃ s1, feed fresh
        (List.replicate 4 (CTL_00, CTL_00, CTL_00) ++ List.replicate 8 (CTL_00, CTL_01, CTL_00)
          ++ [guard_band, guard_band] ++ [(0, 1, 2), (3, 4, 5), (6, 7, 8)]
          ++ [(CTL_01, CTL_00, CTL_00)]) = .ok s1 [] ∧
      s1.previous_h_active_dots = 3 ∧ s1.buffer.length = 3 := by
  obtain ⟨s1, h1, _, h3, h4, _⟩ :=
    line_recorded_at_h_sync (List.replicate 4 (CTL_00, CTL_00, CTL_00))
      (List.replicate 8 (CTL_00, CTL_01, CTL_00)) [(0, 1, 2), (3, 4, 5), (6, 7, 8)]
      (CTL_01, CTL_00, CTL_00) (by decide) (by decide) (by decide) (by decide) (by decide)
      (by decide) (by decide) (by decide)
  exact ⟨s1, h1, h4, h3⟩

theorem feed_out_append_aux (xs ys : List Triple) (s s1 : VideoSourceValidation)
    (o1 : List Message) (h : feed s xs = .ok s1 o1) :
    (feed s (xs ++ ys)).out = o1 ++ (feed s1 ys).out := by
  rw [feed_append_ok_aux xs ys s s1 o1 h]
  cases feed s1 ys <;> rfl

theorem lead_wrap_aux (m : Nat) (hm : (m + 1) % UINT_SIZE = 0) :
    (feed fresh
        (List.replicate m (CTL_00, CTL_00, CTL_00) ++ List.replicate 8 (CTL_00, CTL_01, CTL_00)
          ++ [guard_band, guard_band] ++ [(0, 1, 2)] ++ [(CTL_01, CTL_00, CTL_00)])).out ≠ [] := by
  obtain ⟨s1, h⟩ := spacing_wrap_aux m hm
  have hshape : List.replicate m (CTL_00, CTL_00, CTL_00)
      ++ List.replicate 8 (CTL_00, CTL_01, CTL_00)
      ++ [guard_band, guard_band] ++ [(0, 1, 2)] ++ [(CTL_01, CTL_00, CTL_00)] =
      (List.replicate m (CTL_00, CTL_00, CTL_00) ++ [(CTL_00, CTL_01, CTL_00)])
        ++ (List.replicate 7 (CTL_00, CTL_01, CTL_00)
          ++ [guard_band, guard_band] ++ [(0, 1, 2)] ++ [(CTL_01, CTL_00, CTL_00)]) := by
    have h8 : List.replicate 8 (CTL_00, CTL_01, CTL_00) =
        [(CTL_00, CTL_01, CTL_00)] ++ List.replicate 7 (CTL_00, CTL_01, CTL_00) := rfl
    rw [h8]
    simp only [List.append_assoc]
  rw [hshape, feed_out_append_aux _ _ fresh s1 _ h]
  simp

theorem data_wrap_aux (n : Nat) (hn : n % UINT_SIZE = 0) :
    (feed fresh
        (List.replicate 4 (CTL_00, CTL_00, CTL_00) ++ List.replicate 8 (CTL_00, CTL_01, CTL_00)
          ++ [guard_band, guard_band] ++ List.replicate n (0, 1, 2)
          ++ [(CTL_01, CTL_00, CTL_00)])).state.previous_h_active_dots = 0 := by
  have hdata : ∀ t ∈ List.replicate n ((0 : Nat), (1 : Nat), (2 : Nat)),
      is_data_triple t = true := by
    intro t ht
    rw [List.eq_of_mem_replicate ht]
    decide
  obtain ⟨s1, h1, _, h3, _⟩ :=
    line_aux (List.replicate 4 (CTL_00, CTL_00, CTL_00))
      (List.replicate 8 (CTL_00, CTL_01, CTL_00)) (List.replicate n (0, 1, 2))
      (CTL_01, CTL_00, CTL_00) (by decide) (by decide) (by decide) (by decide) hdata
      (by decide) (by decide)
  rw [h1]
  rw [List.length_replicate, hn] at h3
  exact h3

/-- C20 as stated fails: when the closing control triple is itself a preamble
triple, a "Preamble spacing violation" line is written; after `2 ^ 32` data
triples the recorded width is 0, not `N`; and after `2 ^ 32 - 1` control
triples the 32-bit `control_period_dots` wraps at the first preamble triple
and a message is written. -/
theorem line_claim_fails :
    (feed fresh
        (List.replicate 4 (CTL_00, CTL_00, CTL_00) ++ List.replicate 8 (CTL_00, CTL_01, CTL_00)
          ++ [guard_band, guard_band] ++ [(0, 1, 2)] ++ [(CTL_01, CTL_01, CTL_00)])).out =
      [Message.preamble_spacing 1] ∧
    (feed fresh
        (List.replicate 4 (CTL_00, CTL_00, CTL_00) ++ List.replicate 8 (CTL_00, CTL_01, CTL_00)
          ++ [guard_band, guard_band] ++ List.replicate 4294967296 (0, 1, 2)
          ++ [(CTL_01, CTL_00, CTL_00)])).state.previous_h_active_dots = 0 ∧
    (feed fresh
        (List.replicate 4294967295 (CTL_00, CTL_00, CTL_00)
          ++ List.replicate 8 (CTL_00, CTL_01, CTL_00)
          ++ [guard_band, guard_band] ++ [(0, 1, 2)] ++ [(CTL_01, CTL_00, CTL_00)])).out ≠ [] :=
  ⟨by decide, data_wrap_aux 4294967296 (by decide), lead_wrap_aux 4294967295 (by decide)⟩

end VideoSourceValidation
